import Mathlib

/-!
Verification development for the ZehraGuard insider-threat detection core.

The Python services `behavioral_analyzer.py`, `threat_detector.py` and
`alert_manager.py` are shallowly embedded below.  Python floats are modelled
as exact rationals; Python dicts that carry data are modelled as association
lists; UTC datetimes are modelled as integer epoch seconds (ISO-8601 UTC
timestamp strings sort exactly like their epoch values, so sorting by the
string key is modelled as sorting by the integer).  Square roots produced by
numpy standard deviations are not rational, so they are threaded through the
embedding as an abstract function argument; no theorem below depends on the
value of a standard-deviation feature.

Rational arithmetic is performed through `mkRat`-based wrapper operations
(`qadd`, `qsub`, `qmul`, `qdiv`, ...) that the kernel can evaluate on
concrete inputs; each wrapper is proved equal to the corresponding field
operation on `ℚ`.
-/

set_option maxRecDepth 100000

/-- Addition on `ℚ`, written so the kernel can evaluate it. -/
def qadd (a b : ℚ) : ℚ := mkRat (a.num * b.den + b.num * a.den) (a.den * b.den)

/-- Subtraction on `ℚ`, written so the kernel can evaluate it. -/
def qsub (a b : ℚ) : ℚ := mkRat (a.num * b.den - b.num * a.den) (a.den * b.den)

/-- Multiplication on `ℚ`, written so the kernel can evaluate it. -/
def qmul (a b : ℚ) : ℚ := mkRat (a.num * b.num) (a.den * b.den)

/-- Inverse on `ℚ`, written so the kernel can evaluate it. -/
def qinv (a : ℚ) : ℚ := Rat.divInt (a.den : Int) a.num

/-- Division on `ℚ`, written so the kernel can evaluate it. -/
def qdiv (a b : ℚ) : ℚ := qmul a (qinv b)

/-- Binary minimum on `ℚ` (Python `min`). -/
def qmin (a b : ℚ) : ℚ := if a ≤ b then a else b

/-- Binary maximum on `ℚ` (Python `max`). -/
def qmax (a b : ℚ) : ℚ := if a ≤ b then b else a

/-- Sum of a list of rationals (numpy `sum` / Python `sum`). -/
def qsum (l : List ℚ) : ℚ := l.foldr qadd 0

/-- Arithmetic mean of a list of rationals (numpy `mean`). -/
def qmean (l : List ℚ) : ℚ := qdiv (qsum l) ((l.length : Nat) : ℚ)

/-- Maximum of a list of rationals (numpy `max`); 0 on the empty list, which
the sources never hit because every call is guarded by a non-emptiness test. -/
def qlistMax : List ℚ → ℚ
  | [] => 0
  | x :: xs => xs.foldl qmax x

/-- Population variance of a list of rationals (the square of numpy `std`). -/
def qvariance (l : List ℚ) : ℚ :=
  qmean (l.map (fun x => qmul (qsub x (qmean l)) (qsub x (qmean l))))

/-- Numpy `std`, via the abstract square-root oracle. -/
def qstd (sqrtFn : ℚ → ℚ) (l : List ℚ) : ℚ := sqrtFn (qvariance l)

/-- Stable insertion into a `≤`-sorted list of rationals. -/
def qinsert (x : ℚ) : List ℚ → List ℚ
  | [] => [x]
  | y :: ys => if x ≤ y then x :: y :: ys else y :: qinsert x ys

/-- Stable sort of a list of rationals (Python `sorted` on numbers). -/
def qsort : List ℚ → List ℚ
  | [] => []
  | x :: xs => qinsert x (qsort xs)

/-- Numpy `median`: middle element of the sorted list, or the mean of the two
middle elements when the length is even. -/
def qmedian (l : List ℚ) : ℚ :=
  let s := qsort l
  let n := s.length
  if n % 2 = 1 then s.getD (n / 2) 0
  else qdiv (qadd (s.getD (n / 2 - 1) 0) (s.getD (n / 2) 0)) 2

/-- Lookup in an association list (Python `d[k]` / `k in d`). -/
def aget {α β : Type} [DecidableEq α] (k : α) : List (α × β) → Option β
  | [] => none
  | (k2, v) :: rest => if k = k2 then some v else aget k rest

/-- Insert-or-replace in an association list (Python `d[k] = v`; an existing
key keeps its position, as in a Python dict). -/
def aset {α β : Type} [DecidableEq α] (k : α) (v : β) : List (α × β) → List (α × β)
  | [] => [(k, v)]
  | (k2, v2) :: rest => if k = k2 then (k, v) :: rest else (k2, v2) :: aset k v rest

/-- Numeric lookup with a default (Python `d.get(k, default)` on floats). -/
def fget (m : List (String × ℚ)) (k : String) (dflt : ℚ) : ℚ :=
  match aget k m with
  | some v => v
  | none => dflt

/-- A scalar value stored in an `event_data` mapping. -/
inductive EData
  | num (q : ℚ)
  | str (s : String)
  | boolv (b : Bool)
deriving DecidableEq

/-- One behavioural event (`models.BehavioralEvent` as consumed by the
services): a typed, timestamped observation with a scalar payload. -/
structure Event where
  event_type : String
  timestamp : Int
  event_data : List (String × EData)
deriving DecidableEq

/-- Numeric field of an event payload, when present and numeric. -/
def edNum (e : Event) (k : String) : Option ℚ :=
  match aget k e.event_data with
  | some (EData.num q) => some q
  | _ => none

/-- String field of an event payload, when present and a string. -/
def edStr (e : Event) (k : String) : Option String :=
  match aget k e.event_data with
  | some (EData.str s) => some s
  | _ => none

/-- An entry of the anomalies list built by `_identify_anomalies`. -/
structure Anomaly where
  atype : String
  severity : String
  description : String
  features_involved : List String
deriving DecidableEq

/-- A value stored in a threat evidence mapping. -/
inductive EvVal
  | num (q : ℚ)
  | str (s : String)
  | strList (l : List String)
deriving DecidableEq

/-- A threat dict as built by the detection strategies of `threat_detector.py`.
`risk_score` and `detected_at` are absent until `_calculate_risk_scores`
fills them in; the absent `risk_score` reads as `0.0` through the dict
default and `detected_at` is modelled as an `Option`. -/
structure Threat where
  threat_type : String
  rule_id : String
  severity : String
  title : String
  description : String
  evidence : List (String × EvVal)
  confidence : ℚ
  risk_score : ℚ := 0
  detected_at : Option Int := none
deriving DecidableEq

/-- Values collected by scanning events for a numeric payload field
(the `if key in data: xs.append(data[key])` loops). -/
def collectNums (events : List Event) (k : String) : List ℚ :=
  events.filterMap (fun e => edNum e k)

/-- Distinct string payload values collected into a Python `set`; only the
cardinality of the set is ever used. -/
def countDistinctStr (events : List Event) (k : String) : Nat :=
  ((events.filterMap (fun e => edStr e k)).dedup).length

/-- Summary block `avg/std/...` emitted when a collected list is non-empty. -/
def statBlock (sqrtFn : ℚ → ℚ) (pre : String) (l : List ℚ) (withMedian : Bool) :
    List (String × ℚ) :=
  if l = [] then []
  else
    [("avg_" ++ pre, qmean l), ("std_" ++ pre, qstd sqrtFn l)] ++
      (if withMedian then [("median_" ++ pre, qmedian l)] else [("max_" ++ pre, qlistMax l)])

/-- Embedding of `_extract_keystroke_features`. -/
def extract_keystroke_features (sqrtFn : ℚ → ℚ) (events : List Event) :
    List (String × ℚ) :=
  if events = [] then []
  else
    statBlock sqrtFn "dwell_time" (collectNums events "dwell_time") true ++
    statBlock sqrtFn "flight_time" (collectNums events "flight_time") true ++
    statBlock sqrtFn "typing_speed" (collectNums events "typing_speed") false

/-- Embedding of `_extract_mouse_features`. -/
def extract_mouse_features (sqrtFn : ℚ → ℚ) (events : List Event) :
    List (String × ℚ) :=
  if events = [] then []
  else
    let velocities := collectNums events "velocity"
    let accelerations := collectNums events "acceleration"
    let clicks := collectNums events "click_frequency"
    (if velocities = [] then []
     else [("avg_mouse_velocity", qmean velocities),
           ("std_mouse_velocity", qstd sqrtFn velocities),
           ("max_mouse_velocity", qlistMax velocities)]) ++
    (if accelerations = [] then []
     else [("avg_mouse_acceleration", qmean accelerations),
           ("std_mouse_acceleration", qstd sqrtFn accelerations)]) ++
    (if clicks = [] then []
     else [("avg_click_frequency", qmean clicks),
           ("total_clicks", (clicks.length : ℚ))])

/-- Embedding of `_extract_file_features`. -/
def extract_file_features (events : List Event) : List (String × ℚ) :=
  if events = [] then []
  else
    let fileSizes := collectNums events "file_size"
    [("unique_file_types", (countDistinctStr events "file_type" : ℚ)),
     ("total_file_accesses", (events.length : ℚ)),
     ("unique_files_accessed", (countDistinctStr events "file_path" : ℚ))] ++
    (if fileSizes = [] then []
     else [("avg_file_size", qmean fileSizes),
           ("total_file_size", qsum fileSizes),
           ("max_file_size", qlistMax fileSizes)])

/-- Embedding of `_extract_network_features`. -/
def extract_network_features (events : List Event) : List (String × ℚ) :=
  if events = [] then []
  else
    let volumes := collectNums events "data_volume"
    [("unique_domains", (countDistinctStr events "domain" : ℚ)),
     ("unique_protocols", (countDistinctStr events "protocol" : ℚ)),
     ("total_network_requests", (events.length : ℚ))] ++
    (if volumes = [] then []
     else [("total_data_volume", qsum volumes),
           ("avg_data_volume", qmean volumes),
           ("max_data_volume", qlistMax volumes)])

/-- Count of events whose `success` payload field is the boolean `False`
(`data.get('success', True) == False`). -/
def failedLoginCount (events : List Event) : Nat :=
  (events.filter (fun e => aget "success" e.event_data = some (EData.boolv false))).length

/-- Embedding of `_extract_login_features`. -/
def extract_login_features (events : List Event) : List (String × ℚ) :=
  if events = [] then []
  else
    let failed := failedLoginCount events
    [("unique_login_locations", (countDistinctStr events "location" : ℚ)),
     ("unique_devices", (countDistinctStr events "device_id" : ℚ)),
     ("total_login_attempts", (events.length : ℚ)),
     ("failed_login_attempts", (failed : ℚ)),
     ("login_success_rate",
       qdiv (((events.length - failed : Nat) : ℚ)) ((events.length : ℚ)))]

/-- Embedding of `_extract_app_features`. -/
def extract_app_features (events : List Event) : List (String × ℚ) :=
  if events = [] then []
  else
    let durations := collectNums events "duration"
    [("unique_applications", (countDistinctStr events "application" : ℚ)),
     ("total_app_sessions", (events.length : ℚ))] ++
    (if durations = [] then []
     else [("total_usage_time", qsum durations),
           ("avg_session_duration", qmean durations),
           ("max_session_duration", qlistMax durations)])

/-- Timestamp order on events. -/
def eventLE (a b : Event) : Prop := a.timestamp ≤ b.timestamp

instance : DecidableRel eventLE :=
  fun a b => inferInstanceAs (Decidable (a.timestamp ≤ b.timestamp))

instance : IsTotal Event eventLE :=
  ⟨fun a b => le_total a.timestamp b.timestamp⟩

instance : IsTrans Event eventLE :=
  ⟨fun _ _ _ h1 h2 => le_trans h1 h2⟩

/-- Stable sort of events by timestamp (Python `sorted(events, key=timestamp)`;
ISO UTC timestamp strings compare exactly like their epoch seconds). -/
def sortEvents (l : List Event) : List Event := l.insertionSort eventLE

/-- Placeholder event used only as the default of `List.headD`. -/
def dummyEvent : Event := ⟨"", 0, []⟩

/-- Hour-of-day of an epoch-second timestamp (`datetime.hour` for UTC). -/
def tsHour (t : Int) : Int := (t % 86400) / 3600

/-- Consecutive differences of a list (the inter-event interval loop). -/
def consecutiveDiffs : List Int → List ℚ
  | [] => []
  | [_] => []
  | a :: b :: rest => ((b - a : Int) : ℚ) :: consecutiveDiffs (b :: rest)

/-- Embedding of `_extract_temporal_features`. -/
def extract_temporal_features (sqrtFn : ℚ → ℚ) (events : List Event) :
    List (String × ℚ) :=
  if events = [] then []
  else
    let tss := (sortEvents events).map (fun e => e.timestamp)
    let workHoursEvents := (tss.filter (fun t => 9 ≤ tsHour t ∧ tsHour t ≤ 17)).length
    let intervals := consecutiveDiffs tss
    let span : ℚ :=
      if 1 < tss.length then ((tss.getLastD 0 - tss.headD 0 : Int) : ℚ) else 0
    [("events_in_work_hours", (workHoursEvents : ℚ)),
     ("work_hours_ratio", qdiv ((workHoursEvents : ℚ)) ((events.length : ℚ))),
     ("total_time_span", span)] ++
    (if intervals = [] then []
     else [("avg_event_interval", qmean intervals),
           ("std_event_interval", qstd sqrtFn intervals),
           ("median_event_interval", qmedian intervals)])

/-- First-occurrence-ordered distinct event types (iteration order of the
Python `events_by_type` dict). -/
def eventTypeKeys (seen : List String) : List Event → List String
  | [] => []
  | e :: es =>
    if e.event_type ∈ seen then eventTypeKeys seen es
    else e.event_type :: eventTypeKeys (e.event_type :: seen) es

/-- The per-type extraction function registered in `feature_extractors`,
when one exists for the type. -/
def extractorFor (sqrtFn : ℚ → ℚ) (ty : String) :
    Option (List Event → List (String × ℚ)) :=
  if ty = "keystroke" then some (extract_keystroke_features sqrtFn)
  else if ty = "mouse_movement" then some (extract_mouse_features sqrtFn)
  else if ty = "file_access" then some extract_file_features
  else if ty = "network_request" then some extract_network_features
  else if ty = "login_event" then some extract_login_features
  else if ty = "application_usage" then some extract_app_features
  else none

/-- Embedding of `_extract_behavioral_features`: per-type features followed by
temporal features.  The dict updates are modelled by concatenation; the key
sets contributed by the individual extractors are pairwise disjoint. -/
def extract_behavioral_features (sqrtFn : ℚ → ℚ) (events : List Event) :
    List (String × ℚ) :=
  ((eventTypeKeys [] events).foldl
    (fun acc ty =>
      match extractorFor sqrtFn ty with
      | some f => acc ++ f (events.filter (fun e => e.event_type = ty))
      | none => acc) []) ++
  extract_temporal_features sqrtFn events

/-- Embedding of `_calculate_anomaly_score`.  The per-user isolation-forest
baseline is modelled as an optional decision function from the feature values
to the raw decision score. -/
def calculate_anomaly_score (baseline : Option (List ℚ → ℚ))
    (features : List (String × ℚ)) : ℚ :=
  if features = [] then 0
  else
    match baseline with
    | some f =>
        qmax 0 (qmin 1 (qdiv (qsub 1 (f (features.map (fun p => p.2)))) 2))
    | none => mkRat 3 10

/-- Embedding of `_detect_patterns`. -/
def detect_patterns (features : List (String × ℚ)) : List (String × Bool) :=
  [("high_activity", decide (100 < fget features "total_file_accesses" 0)),
   ("unusual_timing", decide (fget features "work_hours_ratio" 1 < mkRat 3 10)),
   ("data_access_spike", decide (1000000 < fget features "total_data_volume" 0)),
   ("login_anomaly", decide (fget features "login_success_rate" 1 < mkRat 8 10))]

/-- Embedding of `_identify_anomalies`.  The formatted-number description
strings are abstracted to their fixed prefixes; no theorem below reads them. -/
def identify_anomalies (features : List (String × ℚ)) (anomaly_score : ℚ) :
    List Anomaly :=
  (if mkRat 7 10 < anomaly_score then
    [⟨"high_anomaly_score", "high", "Overall behavior anomaly score is high",
      features.map (fun p => p.1)⟩]
   else []) ++
  (if 5 < fget features "unique_login_locations" 0 then
    [⟨"multiple_locations", "medium", "User logged in from multiple locations",
      ["unique_login_locations"]⟩]
   else []) ++
  (if 10000000 < fget features "total_data_volume" 0 then
    [⟨"large_data_transfer", "high", "Large data transfer detected",
      ["total_data_volume"]⟩]
   else [])

/-- Embedding of `_determine_risk_level`. -/
def determine_risk_level (anomaly_score : ℚ) : String :=
  if mkRat 8 10 ≤ anomaly_score then "critical"
  else if mkRat 6 10 ≤ anomaly_score then "high"
  else if mkRat 4 10 ≤ anomaly_score then "medium"
  else "low"

/-- Result record of `analyze_user_behavior`.  The early no-features return of
the source carries no `event_count` key; that absent key is modelled as `0`. -/
structure AnalysisResult where
  user_id : String
  anomaly_score : ℚ
  risk_level : String
  patterns : List (String × Bool)
  anomalies : List Anomaly
  event_count : Nat

/-- Embedding of `analyze_user_behavior`. -/
def analyze_user_behavior (sqrtFn : ℚ → ℚ) (baseline : Option (List ℚ → ℚ))
    (user_id : String) (events : List Event) : AnalysisResult :=
  let features := extract_behavioral_features sqrtFn events
  if features = [] then
    ⟨user_id, 0, "low", [], [], 0⟩
  else
    let score := calculate_anomaly_score baseline features
    ⟨user_id, score, determine_risk_level score, detect_patterns features,
      identify_anomalies features score, events.length⟩

/-- The behavioural-analysis dict handed to `ThreatDetector.detect_threats`.
The detector reads it only through string-keyed numeric `get` calls with
defaults, plus the `anomalies` list; it is modelled accordingly. -/
structure DetectorInput where
  nums : List (String × ℚ)
  anomalies : List Anomaly

/-- Numeric `behavioral_analysis.get(key, default)`. -/
def DetectorInput.get (d : DetectorInput) (k : String) (dflt : ℚ) : ℚ :=
  fget d.nums k dflt

/-- The suspicious-extension allowlist of `detection_rules`. -/
def suspicious_extensions : List String := [".db", ".sql", ".csv", ".xlsx", ".pst"]

/-- Embedding of `_check_suspicious_file_access`: paths of `file_access`
events whose `file_path` ends in a suspicious extension. -/
def check_suspicious_file_access (events : List Event) : List String :=
  events.filterMap (fun e =>
    if e.event_type = "file_access" then
      let path := (edStr e "file_path").getD ""
      if suspicious_extensions.any (fun ext => path.endsWith ext) then some path
      else none
    else none)

/-- Embedding of `_check_data_exfiltration_rules`.  The thresholds
`100000000` (bytes) and `50` (files) come from `detection_rules`; the
formatted descriptions are abstracted to fixed strings. -/
def check_data_exfiltration_rules (ba : DetectorInput) (events : List Event) :
    List Threat :=
  let total_data_volume := ba.get "total_data_volume" 0
  (if 100000000 < total_data_volume then
    [{ threat_type := "data_exfiltration", rule_id := "large_file_access",
       severity := "high", title := "Large Data Volume Access",
       description := "User accessed a large data volume",
       evidence := [("total_data_volume", EvVal.num total_data_volume)],
       confidence := mkRat 8 10 }]
   else []) ++
  (let file_access_count := ba.get "total_file_accesses" 0
   if 50 < file_access_count then
    [{ threat_type := "data_exfiltration", rule_id := "bulk_download",
       severity := "high", title := "Bulk File Download",
       description := "User accessed many files in short timeframe",
       evidence := [("file_access_count", EvVal.num file_access_count)],
       confidence := mkRat 7 10 }]
   else []) ++
  (let suspicious_files := check_suspicious_file_access events
   if suspicious_files = [] then []
   else
    [{ threat_type := "data_exfiltration", rule_id := "suspicious_file_types",
       severity := "medium", title := "Suspicious File Type Access",
       description := "User accessed sensitive files",
       evidence := [("suspicious_files", EvVal.strList suspicious_files)],
       confidence := mkRat 6 10 }])

/-- Embedding of `_check_policy_violation_rules`. -/
def check_policy_violation_rules (ba : DetectorInput) : List Threat :=
  (let work_hours_ratio := ba.get "work_hours_ratio" 1
   if work_hours_ratio < mkRat 3 10 then
    [{ threat_type := "policy_violation", rule_id := "after_hours_access",
       severity := "medium", title := "Excessive After-Hours Activity",
       description := "Low share of activity during work hours",
       evidence := [("work_hours_ratio", EvVal.num work_hours_ratio)],
       confidence := mkRat 7 10 }]
   else []) ++
  (let unique_locations := ba.get "unique_login_locations" 0
   if 3 < unique_locations then
    [{ threat_type := "policy_violation", rule_id := "multiple_locations",
       severity := "high", title := "Multiple Location Access",
       description := "User accessed from several different locations",
       evidence := [("unique_locations", EvVal.num unique_locations)],
       confidence := mkRat 8 10 }]
   else [])

/-- Embedding of `_check_privilege_escalation_rules`. -/
def check_privilege_escalation_rules (ba : DetectorInput) : List Threat :=
  let failed_attempts := ba.get "failed_login_attempts" 0
  if 3 < failed_attempts then
    [{ threat_type := "privilege_escalation", rule_id := "failed_login_attempts",
       severity := "medium", title := "Multiple Failed Login Attempts",
       description := "User had several failed login attempts",
       evidence := [("failed_attempts", EvVal.num failed_attempts)],
       confidence := mkRat 6 10 }]
  else []

/-- Embedding of `_rule_based_detection`. -/
def rule_based_detection (ba : DetectorInput) (events : List Event) : List Threat :=
  check_data_exfiltration_rules ba events ++
  check_policy_violation_rules ba ++
  check_privilege_escalation_rules ba

/-- One configured entry of `threat_patterns`. -/
structure ThreatPattern where
  sequence : List String
  timeframe : Int
  severity : String
deriving DecidableEq

/-- The `threat_patterns` table, in dict insertion order. -/
def threat_patterns : List (String × ThreatPattern) :=
  [("data_exfiltration_pattern",
    ⟨["large_file_access", "external_transfer", "deletion"], 3600, "critical"⟩),
   ("insider_trading_pattern",
    ⟨["financial_data_access", "trading_platform_usage", "unusual_timing"], 7200, "critical"⟩),
   ("reconnaissance_pattern",
    ⟨["directory_enumeration", "privilege_check", "network_scan"], 1800, "high"⟩)]

/-- Embedding of `_pattern_to_threat_type`. -/
def pattern_to_threat_type (pattern_name : String) : String :=
  if pattern_name = "data_exfiltration_pattern" then "data_exfiltration"
  else if pattern_name = "insider_trading_pattern" then "insider_trading"
  else if pattern_name = "reconnaissance_pattern" then "privilege_escalation"
  else "anomalous_behavior"

/-- Loop body of `_group_events_by_time`: `wstart` is the timestamp of the
first event of the currently open window and `cur` its events in order. -/
def groupAux (timeframe : Int) (wstart : Int) (cur : List Event) :
    List Event → List (List Event)
  | [] => [cur]
  | e :: rest =>
    if e.timestamp - wstart ≤ timeframe then groupAux timeframe wstart (cur ++ [e]) rest
    else cur :: groupAux timeframe e.timestamp [e] rest

/-- Embedding of `_group_events_by_time`: sort by timestamp, then cut a new
window whenever the gap from the window-start event exceeds the timeframe. -/
def group_events_by_time (events : List Event) (timeframe : Int) :
    List (List Event) :=
  match sortEvents events with
  | [] => []
  | e :: rest => groupAux timeframe e.timestamp [e] rest

/-- Embedding of `_matches_pattern`: every element of the configured sequence
occurs among the event types of the window; order is not checked. -/
def matches_pattern (events : List Event) (sequence : List String) : Bool :=
  sequence.all (fun s => (events.map (fun e => e.event_type)).contains s)

/-- Embedding of `_check_threat_pattern`: one threat per time window that
matches the pattern. -/
def check_threat_pattern (pattern_name : String) (cfg : ThreatPattern)
    (events : List Event) : List Threat :=
  ((group_events_by_time events cfg.timeframe).filter
      (fun w => matches_pattern w cfg.sequence)).map
    (fun w =>
      { threat_type := pattern_to_threat_type pattern_name,
        rule_id := pattern_name,
        severity := cfg.severity,
        title := "Threat Pattern Detected: " ++ pattern_name,
        description := "Event sequence matches the " ++ pattern_name ++ " pattern",
        evidence := [("pattern", EvVal.strList cfg.sequence),
                     ("events", EvVal.num (w.length : ℚ))],
        confidence := mkRat 9 10 })

/-- Embedding of `_pattern_based_detection`. -/
def pattern_based_detection (events : List Event) : List Threat :=
  threat_patterns.foldl (fun acc p => acc ++ check_threat_pattern p.1 p.2 events) []

/-- Evidence mapping for a threat re-emitted from an anomaly entry: the
anomaly dict itself. -/
def anomalyEvidence (a : Anomaly) : List (String × EvVal) :=
  [("type", EvVal.str a.atype), ("severity", EvVal.str a.severity),
   ("description", EvVal.str a.description),
   ("features_involved", EvVal.strList a.features_involved)]

/-- Embedding of `_anomaly_based_detection`. -/
def anomaly_based_detection (ba : DetectorInput) : List Threat :=
  let anomaly_score := ba.get "anomaly_score" 0
  (if mkRat 8 10 < anomaly_score then
    [{ threat_type := "anomalous_behavior", rule_id := "high_anomaly_score",
       severity := "high", title := "High Behavioral Anomaly",
       description := "User behavior anomaly score is high",
       evidence := [("anomaly_score", EvVal.num anomaly_score)],
       confidence := anomaly_score }]
   else []) ++
  ba.anomalies.map (fun a =>
    { threat_type := "anomalous_behavior", rule_id := "anomaly_" ++ a.atype,
      severity := a.severity, title := "Behavioral Anomaly: " ++ a.atype,
      description := a.description,
      evidence := anomalyEvidence a,
      confidence := mkRat 7 10 })

/-- Embedding of `_calculate_ml_risk_score`: the built-in weighted linear
combination with the `behavioral_weights` coefficients. -/
def calculate_ml_risk_score (ba : DetectorInput) : ℚ :=
  let anomaly_score := ba.get "anomaly_score" 0
  let work_hours_ratio := ba.get "work_hours_ratio" 1
  let failed_login_rate := qsub 1 (ba.get "login_success_rate" 1)
  let data_volume := qmin 1 (qdiv (ba.get "total_data_volume" 0) 100000000)
  qmin 1
    (qadd (qadd (qadd (qmul anomaly_score (mkRat 4 10))
                      (qmul (qsub 1 work_hours_ratio) (mkRat 3 10)))
                (qmul data_volume (mkRat 2 10)))
          (qmul failed_login_rate (mkRat 1 10)))

/-- Embedding of `_ml_based_detection`. -/
def ml_based_detection (ba : DetectorInput) : List Threat :=
  let risk_score := calculate_ml_risk_score ba
  if mkRat 75 100 < risk_score then
    [{ threat_type := "anomalous_behavior", rule_id := "ml_high_risk",
       severity := "high", title := "ML Model High Risk Score",
       description := "ML model calculated a high risk score",
       evidence := [("ml_risk_score", EvVal.num risk_score)],
       confidence := risk_score }]
  else []

/-- Severity ranking used by `_merge_threats` (`{'low':1,...}.get(sev, 2)`). -/
def severityRank (s : String) : Nat :=
  if s = "low" then 1
  else if s = "medium" then 2
  else if s = "high" then 3
  else if s = "critical" then 4
  else 2

/-- Python `max(threats, key=severity rank)`: the first element attaining the
maximal rank. -/
def maxSevThreat (t : Threat) (ts : List Threat) : Threat :=
  ts.foldl (fun acc x => if severityRank acc.severity < severityRank x.severity then x else acc) t

/-- Python `dict.update` of one evidence mapping into another. -/
def dictUpdate (d e : List (String × EvVal)) : List (String × EvVal) :=
  e.foldl (fun acc kv => aset kv.1 kv.2 acc) d

/-- Comma-separated titles of the contributing threats, in input order. -/
def joinTitles (ts : List Threat) : String :=
  String.intercalate ", " (ts.map (fun t => t.title))

/-- Embedding of `_merge_threats`.  The empty case mirrors the source's
`return {}` and is never reached from `_correlate_threats`. -/
def merge_threats : List Threat → Threat
  | [] => { threat_type := "", rule_id := "", severity := "", title := "",
            description := "", evidence := [], confidence := 0 }
  | t :: ts =>
    let base := maxSevThreat t ts
    { base with
      evidence := (t :: ts).foldl (fun acc x => dictUpdate acc x.evidence) [],
      confidence := qdiv (qsum ((t :: ts).map (fun x => x.confidence)))
        (((t :: ts).length : Nat) : ℚ),
      description := "Multiple indicators detected: " ++ joinTitles (t :: ts),
      rule_id := "merged_" ++ base.threat_type }

/-- First-occurrence-ordered distinct threat types (iteration order of the
Python `threat_groups` dict). -/
def threatTypeKeys (seen : List String) : List Threat → List String
  | [] => []
  | t :: ts =>
    if t.threat_type ∈ seen then threatTypeKeys seen ts
    else t.threat_type :: threatTypeKeys (t.threat_type :: seen) ts

/-- The group of a threat type and its correlated representative: singleton
groups pass through unchanged, larger groups are merged. -/
def correlateGroup (ts : List Threat) (k : String) : Threat :=
  match ts.filter (fun t => t.threat_type = k) with
  | [t] => t
  | g => merge_threats g

/-- Embedding of `_correlate_threats`. -/
def correlate_threats (ts : List Threat) : List Threat :=
  if ts = [] then []
  else (threatTypeKeys [] ts).map (correlateGroup ts)

/-- Severity multiplier of `_calculate_risk_scores`
(`{'low':0.3,...}.get(sev, 0.6)`). -/
def severity_multiplier (s : String) : ℚ :=
  if s = "low" then mkRat 3 10
  else if s = "medium" then mkRat 6 10
  else if s = "high" then mkRat 8 10
  else if s = "critical" then 1
  else mkRat 6 10

/-- Per-threat body of `_calculate_risk_scores`: final risk score and the
detection timestamp, set at this stage. -/
def assign_risk (now : Int) (t : Threat) : Threat :=
  { t with risk_score := qmin 1 (qmul t.confidence (severity_multiplier t.severity)),
           detected_at := some now }

/-- Embedding of `_calculate_risk_scores`. -/
def calculate_risk_scores (now : Int) (ts : List Threat) : List Threat :=
  ts.map (assign_risk now)

/-- Embedding of the happy path of `detect_threats`: the four strategies over
the same inputs, then correlation, then final scoring. -/
def detect_threats (now : Int) (ba : DetectorInput) (events : List Event) :
    List Threat :=
  calculate_risk_scores now
    (correlate_threats
      (rule_based_detection ba events ++
       pattern_based_detection events ++
       anomaly_based_detection ba ++
       ml_based_detection ba))

/-- Key of the `rate_limiters` dict.  The source keys one dict with the
disjoint string prefixes `user_` and `threat_`; the two prefixes are
modelled as the two constructors. -/
inductive RLKey
  | user (id : String)
  | threat (ttype : String)
deriving DecidableEq

/-- Mutable state of an `AlertManager` instance: the rate-limit windows and
the duplicate-suppression history (keyed by the `(user_id, threat_type)`
pair that the source renders as the string `f"{user_id}_{threat_type}"`). -/
structure AMState where
  rate_limiters : List (RLKey × List Int)
  alert_history : List ((String × String) × Int)
deriving DecidableEq

/-- A fresh `AlertManager` (empty tables). -/
def initialAMState : AMState := ⟨[], []⟩

/-- An alert record as built by `_create_alert`.  Bookkeeping fields that no
gate or theorem reads (`updated_at`, `acknowledged`, `escalated`,
`false_positive`, `context`) are omitted. -/
structure Alert where
  id : String
  user_id : String
  threat_type : String
  severity : String
  risk_score : ℚ
  title : String
  description : String
  evidence : List (String × EvVal)
  confidence : ℚ
  status : String
  created_at : Int
  priority : String
  recommended_actions : List String
deriving DecidableEq

/-- The `min_risk_score` table of `alert_rules`
(`alert_rules['min_risk_score'].get(severity, 0.0)`). -/
def min_risk_score (severity : String) : ℚ :=
  if severity = "low" then mkRat 3 10
  else if severity = "medium" then mkRat 5 10
  else if severity = "high" then mkRat 7 10
  else if severity = "critical" then mkRat 8 10
  else 0

/-- The `per_user_per_hour` cap of `alert_rules['rate_limits']`. -/
def per_user_per_hour : Nat := 10

/-- The `per_threat_type_per_hour` cap of `alert_rules['rate_limits']`. -/
def per_threat_type_per_hour : Nat := 5

/-- The duplicate-suppression cooldown of `alert_rules['rate_limits']`,
in seconds (15 minutes). -/
def cooldown_seconds : Int := 900

/-- Embedding of `_is_rate_limited`.  Pruning of stale entries writes the
filtered lists back into the state, as in the source. -/
def is_rate_limited (s : AMState) (now : Int) (user_id ttype : String) :
    Bool × AMState :=
  let hourAgo := now - 3600
  let userKey := RLKey.user user_id
  let ul := ((aget userKey s.rate_limiters).getD []).filter (fun ts => hourAgo < ts)
  let s1 : AMState := { s with rate_limiters := aset userKey ul s.rate_limiters }
  if per_user_per_hour ≤ ul.length then (true, s1)
  else
    let threatKey := RLKey.threat ttype
    let tl := ((aget threatKey s1.rate_limiters).getD []).filter (fun ts => hourAgo < ts)
    let s2 : AMState := { s1 with rate_limiters := aset threatKey tl s1.rate_limiters }
    if per_threat_type_per_hour ≤ tl.length then (true, s2)
    else (false, s2)

/-- Embedding of `_is_duplicate_alert`.  The history entry is written only on
the non-duplicate fall-through; the early duplicate return leaves the
history untouched. -/
def is_duplicate_alert (s : AMState) (now : Int) (user_id ttype : String) :
    Bool × AMState :=
  let cooldownTime := now - cooldown_seconds
  match aget (user_id, ttype) s.alert_history with
  | some last =>
    if cooldownTime < last then (true, s)
    else (false, { s with alert_history := aset (user_id, ttype) now s.alert_history })
  | none =>
    (false, { s with alert_history := aset (user_id, ttype) now s.alert_history })

/-- Embedding of `_should_generate_alert`: the three gates in short-circuit
order (minimum risk score, rate limit, duplicate suppression). -/
def should_generate_alert (s : AMState) (now : Int) (user_id : String) (t : Threat) :
    Bool × AMState :=
  if t.risk_score < min_risk_score t.severity then (false, s)
  else
    match is_rate_limited s now user_id t.threat_type with
    | (true, s1) => (false, s1)
    | (false, s1) =>
      match is_duplicate_alert s1 now user_id t.threat_type with
      | (true, s2) => (false, s2)
      | (false, s2) => (true, s2)

/-- Embedding of `_determine_priority`. -/
def determine_priority (severity : String) (risk_score : ℚ) : String :=
  if severity = "critical" ∨ mkRat 9 10 ≤ risk_score then "critical"
  else if severity = "high" ∨ mkRat 7 10 ≤ risk_score then "high"
  else if severity = "medium" ∨ mkRat 5 10 ≤ risk_score then "medium"
  else "low"

/-- Embedding of `_get_recommended_actions` (apostrophes of the source text
are elided). -/
def get_recommended_actions (ttype : String) : List String :=
  if ttype = "data_exfiltration" then
    ["Immediately review user file access logs",
     "Check for unauthorized data transfers",
     "Consider temporarily restricting user access",
     "Investigate network traffic patterns"]
  else if ttype = "policy_violation" then
    ["Review company security policies with user",
     "Check if user has legitimate business reason",
     "Consider additional training requirements",
     "Monitor user behavior closely"]
  else if ttype = "privilege_escalation" then
    ["Immediately review user access permissions",
     "Check for unauthorized privilege changes",
     "Audit recent access attempts",
     "Consider revoking elevated privileges temporarily"]
  else if ttype = "anomalous_behavior" then
    ["Investigate underlying cause of anomaly",
     "Review recent user activities",
     "Check for compromised credentials",
     "Monitor user behavior patterns"]
  else
    ["Review alert details carefully",
     "Investigate user behavior",
     "Take appropriate security measures"]

/-- Embedding of `_get_notification_channels_for_priority`. -/
def get_notification_channels_for_priority (priority : String) : List String :=
  if priority = "critical" then ["email", "slack", "webhook", "siem"]
  else if priority = "high" then ["email", "slack", "siem"]
  else if priority = "medium" then ["email", "siem"]
  else if priority = "low" then ["siem"]
  else ["siem"]

/-- Embedding of `_create_alert` (the strftime-rendered alert id is modelled
with the epoch timestamp). -/
def create_alert (now : Int) (user_id : String) (t : Threat) : Alert :=
  { id := "alert_" ++ toString now ++ "_" ++ user_id ++ "_" ++ t.threat_type,
    user_id := user_id,
    threat_type := t.threat_type,
    severity := t.severity,
    risk_score := t.risk_score,
    title := t.title,
    description := t.description,
    evidence := t.evidence,
    confidence := t.confidence,
    status := "open",
    created_at := now,
    priority := determine_priority t.severity t.risk_score,
    recommended_actions := get_recommended_actions t.threat_type }

/-- Embedding of `_update_rate_limiting`: append the creation time to both
windows, without pruning. -/
def update_rate_limiting (s : AMState) (now : Int) (user_id ttype : String) :
    AMState :=
  let userKey := RLKey.user user_id
  let ul := ((aget userKey s.rate_limiters).getD []) ++ [now]
  let s1 : AMState := { s with rate_limiters := aset userKey ul s.rate_limiters }
  let threatKey := RLKey.threat ttype
  let tl := ((aget threatKey s1.rate_limiters).getD []) ++ [now]
  { s1 with rate_limiters := aset threatKey tl s1.rate_limiters }

/-- Loop body of `process_threats`: gate each threat, and on a pass create
the alert and update the rate windows before moving to the next threat. -/
def process_threats_go (s : AMState) (now : Int) (user_id : String) :
    List Threat → List Alert × AMState
  | [] => ([], s)
  | t :: ts =>
    match should_generate_alert s now user_id t with
    | (true, s1) =>
      let a := create_alert now user_id t
      let s2 := update_rate_limiting s1 now user_id t.threat_type
      let (rest, s3) := process_threats_go s2 now user_id ts
      (a :: rest, s3)
    | (false, s1) =>
      process_threats_go s1 now user_id ts

/-- Embedding of the happy path of `process_threats` for one batch, at one
clock reading. -/
def process_threats (s : AMState) (now : Int) (user_id : String)
    (threats : List Threat) : List Alert × AMState :=
  process_threats_go s now user_id threats

/-- A sequence of `process_threats` calls at given clock readings, threading
the manager state and collecting every alert created. -/
def runBatches (s : AMState) (user_id : String) :
    List (Int × List Threat) → List Alert × AMState
  | [] => ([], s)
  | (now, ts) :: rest =>
    let (as1, s1) := process_threats s now user_id ts
    let (as2, s2) := runBatches s1 user_id rest
    (as1 ++ as2, s2)

/-- Modelled from the spec: the repository contains no caller composing the
three services, so the data flow of spec section 2 is modelled here: event
batch to Feature Extractor to Behavioral Scorer, then "(features + score)"
to the Threat Detector, then the correlated threat list to the Alert
Manager.  The detector input carries the full feature vector together with
the anomaly score and the anomalies of the analysis. -/
def detectorInputOf (sqrtFn : ℚ → ℚ) (baseline : Option (List ℚ → ℚ))
    (user_id : String) (events : List Event) : DetectorInput :=
  let features := extract_behavioral_features sqrtFn events
  let analysis := analyze_user_behavior sqrtFn baseline user_id events
  ⟨features ++ [("anomaly_score", analysis.anomaly_score)], analysis.anomalies⟩

/-- Modelled from the spec: `processBatch(user_id, events)`, the single entry
point of spec section 6, composing scorer, detector and alert manager. -/
def processBatch (sqrtFn : ℚ → ℚ) (baseline : Option (List ℚ → ℚ))
    (s : AMState) (now : Int) (user_id : String) (events : List Event) :
    List Alert × AMState :=
  let threats := detect_threats now (detectorInputOf sqrtFn baseline user_id events) events
  process_threats s now user_id threats

/-- The `except Exception: return []` guard wrapped around each detection
strategy (`_rule_based_detection` and its peers catch their own failures and
contribute nothing). -/
def strategyCatch (r : Except String (List Threat)) : List Threat :=
  match r with
  | Except.ok l => l
  | Except.error _ => []

/-- Body of `detect_threats` under the top-level `try`: the four
strategy results (each already guarded on its own) are concatenated, then
the correlation and final-scoring phases run, each modelled as fallible. -/
def detect_threats_body (ruleR patternR anomalyR mlR : Except String (List Threat))
    (corr : List Threat → Except String (List Threat))
    (score : List Threat → Except String (List Threat)) :
    Except String (List Threat) := do
  let ts := strategyCatch ruleR ++ strategyCatch patternR ++
            strategyCatch anomalyR ++ strategyCatch mlR
  let c ← corr ts
  score c

/-- The public `detect_threats` with its top-level
`except Exception: return []` guard. -/
def detect_threats_guarded (ruleR patternR anomalyR mlR : Except String (List Threat))
    (corr : List Threat → Except String (List Threat))
    (score : List Threat → Except String (List Threat)) : List Threat :=
  match detect_threats_body ruleR patternR anomalyR mlR corr score with
  | Except.ok l => l
  | Except.error _ => []

/-- The public `process_threats` with its top-level
`except Exception: return []` guard, modelled over the fallible body result. -/
def process_threats_guarded (body : Except String (List Alert × AMState)) :
    List Alert :=
  match body with
  | Except.ok r => r.1
  | Except.error _ => []

/-- Concrete detector input for exercising the anomaly-based strategy: the
analysis carries anomaly score 0.9 and one anomaly entry. -/
def c8Input : DetectorInput :=
  ⟨[("anomaly_score", mkRat 9 10)],
   [⟨"multiple_locations", "medium", "User logged in from multiple locations",
     ["unique_login_locations"]⟩]⟩

/-- Concrete alert-manager state with one duplicate-suppression entry. -/
def c3State : AMState := ⟨[], [(("u1", "data_exfiltration"), 1000)]⟩

/-- The pruning predicate of the rolling one-hour window. -/
def winFilter (now : Int) (l : List Int) : List Int :=
  l.filter (fun ts => now - 3600 < ts)

/-- Number of timestamps inside the rolling one-hour window of a rate-limit
key: the quantity the caps of `_is_rate_limited` are checked against. -/
def inWindowCount (s : AMState) (now : Int) (k : RLKey) : Nat :=
  (winFilter now ((aget k s.rate_limiters).getD [])).length

/-- A threat whose risk score is far below the medium-severity minimum. -/
def c4Threat : Threat :=
  { threat_type := "policy_violation", rule_id := "after_hours_access",
    severity := "medium", title := "Excessive After-Hours Activity",
    description := "d", evidence := [], confidence := mkRat 7 10,
    risk_score := mkRat 1 10 }

/-- Concrete events for exercising the grouping: three reconnaissance-type
events inside half an hour and one far outside it. -/
def c9Events : List Event :=
  [⟨"directory_enumeration", 100, []⟩, ⟨"privilege_check", 110, []⟩,
   ⟨"network_scan", 120, []⟩, ⟨"directory_enumeration", 5000, []⟩]

/-- One file-access event of 2 MB at a work-hours UTC timestamp (hour 10). -/
def c1Event : Event := ⟨"file_access", 1699956000, [("file_size", EData.num 2000000)]⟩

/-- The C1 scenario batch: 60 file-access events totalling 120 MB in one
analysis window. -/
def c1Events : List Event := List.replicate 60 c1Event

/-- Concrete square-root oracle for the scenario (the only standard
deviations taken are of all-equal samples, whose variance is 0). -/
def c1SqrtFn : ℚ → ℚ := fun _ => 0

/-- The scenario's behavioural analysis for a user with no baseline. -/
def c1Analysis : AnalysisResult := analyze_user_behavior c1SqrtFn none "user1" c1Events

/-- The scenario's detector input under the spec-modelled wiring. -/
def c1Input : DetectorInput := detectorInputOf c1SqrtFn none "user1" c1Events

/-- The scenario's correlated threat list. -/
def c1Threats : List Threat := detect_threats 1699956000 c1Input c1Events

/-- The rolling-window timestamps recorded for a user. -/
def userWin (s : AMState) (u : String) : List Int :=
  (aget (RLKey.user u) s.rate_limiters).getD []

/-- A qualifying medium-severity threat of a given type (risk 0.6 passes the
0.5 medium minimum). -/
def c2Threat (ty : String) : Threat :=
  { threat_type := ty, rule_id := "r", severity := "medium", title := "T",
    description := "d", evidence := [], confidence := mkRat 6 10,
    risk_score := mkRat 6 10 }

/-- Eleven qualifying threats for one user inside one hour: seven distinct
types at time 0, then four repeats 1000 seconds later, outside the
15-minute duplicate cooldown and under the per-type cap. -/
def c2TenBatches : List (Int × List Threat) :=
  [(0, [c2Threat "t1", c2Threat "t2", c2Threat "t3", c2Threat "t4", c2Threat "t5",
        c2Threat "t6", c2Threat "t7"]),
   (1000, [c2Threat "t1", c2Threat "t2", c2Threat "t3", c2Threat "t4"])]

/-- Maximal severity rank of a threat group. -/
def maxRank (g : List Threat) : Nat :=
  (g.map (fun t => severityRank t.severity)).foldl Nat.max 0

/-- A severity string of the closed severity enumeration. -/
def validSeverity (s : String) : Prop :=
  s = "low" ∨ s = "medium" ∨ s = "high" ∨ s = "critical"

instance (s : String) : Decidable (validSeverity s) := by
  unfold validSeverity
  infer_instance

/-- The signature of a threat that correlation treats as its content up to
merging artifacts: type, severity and confidence. -/
def threatSig (t : Threat) : String × String × ℚ :=
  (t.threat_type, t.severity, t.confidence)

/-- High-severity data-exfiltration threat from the volume rule. -/
def c5A : Threat :=
  { threat_type := "data_exfiltration", rule_id := "large_file_access",
    severity := "high", title := "Large Data Volume Access",
    description := "User accessed a large data volume",
    evidence := [("total_data_volume", EvVal.num 120000000)],
    confidence := mkRat 8 10 }

/-- High-severity data-exfiltration threat from the bulk rule. -/
def c5B : Threat :=
  { threat_type := "data_exfiltration", rule_id := "bulk_download",
    severity := "high", title := "Bulk File Download",
    description := "User accessed many files in short timeframe",
    evidence := [("file_access_count", EvVal.num 60)],
    confidence := mkRat 7 10 }

/-! ## Theorems -/

theorem qadd_eq (a b : ℚ) : qadd a b = a + b := (Rat.add_def' a b).symm

theorem qsub_eq (a b : ℚ) : qsub a b = a - b := (Rat.sub_def' a b).symm

theorem qmul_eq (a b : ℚ) : qmul a b = a * b := by
  rw [qmul, Rat.mul_def, Rat.normalize_eq_mkRat]

theorem qinv_eq (a : ℚ) : qinv a = a⁻¹ := by
  rw [qinv, ← Rat.inv_def]
  rfl

theorem qdiv_eq (a b : ℚ) : qdiv a b = a / b := by
  rw [qdiv, qmul_eq, qinv_eq, div_eq_mul_inv]

theorem qmin_eq (a b : ℚ) : qmin a b = min a b := by
  rw [qmin, min_def]

theorem qmax_eq (a b : ℚ) : qmax a b = max a b := by
  rw [qmax, max_def]

theorem qsum_eq (l : List ℚ) : qsum l = l.sum := by
  induction l with
  | nil => rfl
  | cons x xs ih => simp [qsum, List.sum_cons, qadd_eq] at ih ⊢; rw [ih]

theorem aget_aset_same {α β : Type} [DecidableEq α] (k : α) (v : β) (m : List (α × β)) :
    aget k (aset k v m) = some v := by
  induction m with
  | nil => simp [aget, aset]
  | cons p rest ih =>
    by_cases h : k = p.1
    · simp [aset, h, aget]
    · simp [aset, aget, h, ih]

theorem aget_aset_ne {α β : Type} [DecidableEq α] (k k2 : α) (v : β) (m : List (α × β))
    (h : k2 ≠ k) : aget k2 (aset k v m) = aget k2 m := by
  induction m with
  | nil => simp [aget, aset, h]
  | cons p rest ih =>
    by_cases hk : k = p.1
    · subst hk
      simp [aset, aget, h]
    · by_cases hk2 : k2 = p.1
      · simp [aset, aget, hk, hk2]
      · simp [aset, aget, hk, hk2, ih]

theorem severity_multiplier_nonneg (s : String) : 0 ≤ severity_multiplier s := by
  unfold severity_multiplier
  split_ifs <;> norm_num [Rat.mkRat_eq_div]

theorem severity_multiplier_le_one (s : String) : severity_multiplier s ≤ 1 := by
  unfold severity_multiplier
  split_ifs <;> norm_num [Rat.mkRat_eq_div]

/-- C6: for every baseline state and feature vector, the anomaly score of the
Behavioral Scorer lies in the interval from 0 to 1, and the risk level is the
deterministic threshold ladder on the score: at least 0.8 gives critical, at
least 0.6 gives high, at least 0.4 gives medium, and anything lower gives
low. -/
theorem anomaly_score_in_unit_and_risk_ladder
    (baseline : Option (List ℚ → ℚ)) (features : List (String × ℚ)) :
    (0 ≤ calculate_anomaly_score baseline features ∧
      calculate_anomaly_score baseline features ≤ 1) ∧
    ∀ s : ℚ, determine_risk_level s =
      (if (8 : ℚ)/10 ≤ s then "critical"
       else if (6 : ℚ)/10 ≤ s then "high"
       else if (4 : ℚ)/10 ≤ s then "medium"
       else "low") := by
  constructor
  · unfold calculate_anomaly_score
    split_ifs with hempty
    · norm_num
    · cases baseline with
      | none => norm_num [Rat.mkRat_eq_div]
      | some f =>
        dsimp only
        rw [qmax_eq, qmin_eq]
        constructor
        · exact le_max_left 0 _
        · exact max_le (by norm_num) (min_le_left 1 _)
  · intro s
    unfold determine_risk_level
    norm_num [Rat.mkRat_eq_div]

/-- Membership in a conditional singleton list forces equality. -/
theorem mem_ite_singleton {α : Type} {t a : α} {c : Prop} [Decidable c]
    (h : t ∈ if c then [a] else []) : t = a := by
  split at h
  · simpa using h
  · simp at h

/-- Every threat emitted by the rule-based strategy carries no detection
timestamp yet. -/
theorem rule_based_detected_at_none (ba : DetectorInput) (events : List Event) :
    ∀ t ∈ rule_based_detection ba events, t.detected_at = none := by
  intro t ht
  simp only [rule_based_detection, check_data_exfiltration_rules,
    check_policy_violation_rules, check_privilege_escalation_rules,
    List.mem_append] at ht
  rcases ht with (((h | h) | h) | (h | h)) | h
  · rw [mem_ite_singleton h]
  · rw [mem_ite_singleton h]
  · split at h
    · simp at h
    · simp at h
      rw [h]
  · rw [mem_ite_singleton h]
  · rw [mem_ite_singleton h]
  · rw [mem_ite_singleton h]

/-- Every threat emitted by the pattern-based strategy carries no detection
timestamp yet. -/
theorem pattern_based_detected_at_none (events : List Event) :
    ∀ t ∈ pattern_based_detection events, t.detected_at = none := by
  intro t ht
  simp only [pattern_based_detection, threat_patterns, List.foldl_cons,
    List.foldl_nil, List.nil_append, List.mem_append] at ht
  rcases ht with (h | h) | h <;>
  · simp only [check_threat_pattern, List.mem_map] at h
    obtain ⟨w, _, hw⟩ := h
    rw [← hw]

/-- Every threat emitted by the anomaly-based strategy carries no detection
timestamp yet. -/
theorem anomaly_based_detected_at_none (ba : DetectorInput) :
    ∀ t ∈ anomaly_based_detection ba, t.detected_at = none := by
  intro t ht
  simp only [anomaly_based_detection, List.mem_append] at ht
  rcases ht with h | h
  · rw [mem_ite_singleton h]
  · simp only [List.mem_map] at h
    obtain ⟨a, _, ha⟩ := h
    rw [← ha]

/-- Every threat emitted by the ML-fusion strategy carries no detection
timestamp yet. -/
theorem ml_based_detected_at_none (ba : DetectorInput) :
    ∀ t ∈ ml_based_detection ba, t.detected_at = none := by
  intro t ht
  simp only [ml_based_detection] at ht
  rw [mem_ite_singleton ht]

/-- C7: the final risk score assigned by `_calculate_risk_scores` to a threat
with confidence in the unit interval equals confidence times the severity
weight (0.3 low, 0.6 medium, 0.8 high, 1.0 critical), lies in the unit
interval, and the detection timestamp is set at this final-scoring stage:
the four strategies emit threats with no timestamp, and `assign_risk`
stamps the scoring-stage clock. -/
theorem final_scoring_risk_and_timestamp (now : Int) (t : Threat)
    (h0 : 0 ≤ t.confidence) (h1 : t.confidence ≤ 1) :
    (∀ ts : List Threat, calculate_risk_scores now ts = ts.map (assign_risk now)) ∧
    (assign_risk now t).risk_score = t.confidence * severity_multiplier t.severity ∧
    (0 ≤ (assign_risk now t).risk_score ∧ (assign_risk now t).risk_score ≤ 1) ∧
    (assign_risk now t).detected_at = some now ∧
    (∀ (ba : DetectorInput) (events : List Event),
      ∀ t2 ∈ rule_based_detection ba events ++ pattern_based_detection events ++
          anomaly_based_detection ba ++ ml_based_detection ba,
        t2.detected_at = none) ∧
    (severity_multiplier "low" = 3/10 ∧ severity_multiplier "medium" = 6/10 ∧
      severity_multiplier "high" = 8/10 ∧ severity_multiplier "critical" = 1) := by
  have hrs : (assign_risk now t).risk_score = t.confidence * severity_multiplier t.severity := by
    simp only [assign_risk, qmin_eq, qmul_eq]
    exact min_eq_right
      (mul_le_one₀ h1 (severity_multiplier_nonneg t.severity)
        (severity_multiplier_le_one t.severity))
  refine ⟨fun ts => rfl, hrs, ⟨?_, ?_⟩, rfl, ?_, ?_, ?_, ?_, ?_⟩
  · rw [hrs]
    exact mul_nonneg h0 (severity_multiplier_nonneg t.severity)
  · rw [hrs]
    exact mul_le_one₀ h1 (severity_multiplier_nonneg t.severity)
      (severity_multiplier_le_one t.severity)
  · intro ba events t2 ht2
    simp only [List.mem_append] at ht2
    rcases ht2 with ((h | h) | h) | h
    · exact rule_based_detected_at_none ba events t2 h
    · exact pattern_based_detected_at_none events t2 h
    · exact anomaly_based_detected_at_none ba t2 h
    · exact ml_based_detected_at_none ba t2 h
  · rw [show severity_multiplier "low" = mkRat 3 10 from by decide, Rat.mkRat_eq_div]
    norm_num
  · rw [show severity_multiplier "medium" = mkRat 6 10 from by decide, Rat.mkRat_eq_div]
    norm_num
  · rw [show severity_multiplier "high" = mkRat 8 10 from by decide, Rat.mkRat_eq_div]
    norm_num
  · rw [show severity_multiplier "critical" = 1 from by decide]

/-- Witness for C7 at a concrete threat with confidence 0.7 and severity
high, whose final risk score is 0.56. -/
theorem final_scoring_risk_and_timestamp_witness :
    (0 : ℚ) ≤ mkRat 7 10 ∧ mkRat 7 10 ≤ 1 ∧
    (assign_risk 1699956000
      { threat_type := "data_exfiltration", rule_id := "bulk_download",
        severity := "high", title := "Bulk File Download", description := "d",
        evidence := [], confidence := mkRat 7 10 }).risk_score =
      mkRat 7 10 * severity_multiplier "high" := by
  refine ⟨by decide, by decide, ?_⟩
  exact (final_scoring_risk_and_timestamp 1699956000
    { threat_type := "data_exfiltration", rule_id := "bulk_download",
      severity := "high", title := "Bulk File Download", description := "d",
      evidence := [], confidence := mkRat 7 10 }
    (by decide) (by decide)).2.1

/-- C8 counterexample: with anomaly score 0.9 and one anomaly entry, the
strategy emits the score threat with confidence 0.9 but re-emits the anomaly
entry with the fixed confidence 0.7, not the anomaly score, refuting the
claim that the anomaly score is the confidence of the re-emitted threats. -/
theorem anomaly_entry_confidence_counterexample :
    (anomaly_based_detection c8Input).map (fun t => t.confidence) =
      [mkRat 9 10, mkRat 7 10] ∧
    ¬ ((mkRat 7 10 : ℚ) = mkRat 9 10) := by decide

/-- C8 (amended): the anomaly-based strategy emits one threat for the
analysis's own anomaly score exactly when that score exceeds 0.8, with the
score itself as confidence, and re-emits each anomaly entry as a threat
preserving that entry's severity but with fixed confidence 0.7. -/
theorem anomaly_strategy_emissions (ba : DetectorInput) :
    (anomaly_based_detection ba).length =
      ((if mkRat 8 10 < ba.get "anomaly_score" 0 then 1 else 0) + ba.anomalies.length) ∧
    (∀ a ∈ ba.anomalies, ∃ t ∈ anomaly_based_detection ba,
      t.rule_id = "anomaly_" ++ a.atype ∧ t.severity = a.severity ∧
      t.confidence = mkRat 7 10 ∧ t.threat_type = "anomalous_behavior") ∧
    (mkRat 8 10 < ba.get "anomaly_score" 0 →
      ∃ t ∈ anomaly_based_detection ba,
        t.rule_id = "high_anomaly_score" ∧ t.severity = "high" ∧
        t.confidence = ba.get "anomaly_score" 0) := by
  refine ⟨?_, ?_, ?_⟩
  · simp only [anomaly_based_detection, List.length_append, List.length_map]
    split_ifs with h <;> simp [h]
  · intro a ha
    refine ⟨{ threat_type := "anomalous_behavior", rule_id := "anomaly_" ++ a.atype, severity := a.severity, title := "Behavioral Anomaly: " ++ a.atype, description := a.description, evidence := anomalyEvidence a, confidence := mkRat 7 10 }, ?_, rfl, rfl, rfl, rfl⟩
    simp only [anomaly_based_detection, List.mem_append, List.mem_map]
    exact Or.inr ⟨a, ha, rfl⟩
  · intro h
    refine ⟨{ threat_type := "anomalous_behavior", rule_id := "high_anomaly_score", severity := "high", title := "High Behavioral Anomaly", description := "User behavior anomaly score is high", evidence := [("anomaly_score", EvVal.num (ba.get "anomaly_score" 0))], confidence := ba.get "anomaly_score" 0 }, ?_, rfl, rfl, rfl⟩
    simp only [anomaly_based_detection, List.mem_append]
    exact Or.inl (by simp [h])

/-- Witness for C8 (amended) at the concrete input: the anomaly entry of
severity medium is re-emitted with confidence 0.7. -/
theorem anomaly_strategy_emissions_witness :
    ∃ t ∈ anomaly_based_detection c8Input,
      t.rule_id = "anomaly_" ++ "multiple_locations" ∧ t.severity = "medium" ∧
      t.confidence = mkRat 7 10 ∧ t.threat_type = "anomalous_behavior" :=
  (anomaly_strategy_emissions c8Input).2.1
    ⟨"multiple_locations", "medium", "User logged in from multiple locations",
     ["unique_login_locations"]⟩ (by decide)

/-- C3 counterexample: at time 1500, within the 900 second cooldown of the
stored last-seen time 1000, the duplicate check rejects the threat and
leaves the stored timestamp at 1000 instead of updating it to the time of
the check. -/
theorem duplicate_check_counterexample :
    (is_duplicate_alert c3State 1500 "u1" "data_exfiltration").1 = true ∧
    (is_duplicate_alert c3State 1500 "u1" "data_exfiltration").2.alert_history =
      [(("u1", "data_exfiltration"), 1000)] ∧
    ¬ (aget ("u1", "data_exfiltration")
        (is_duplicate_alert c3State 1500 "u1" "data_exfiltration").2.alert_history =
          some 1500) := by decide

/-- C3 (amended): the duplicate check updates the stored last-seen timestamp
for the pair exactly when it reports no duplicate; a rejection within the
cooldown window leaves the history untouched, and the check never touches
the rate-limit windows. -/
theorem duplicate_check_history_update (s : AMState) (now : Int) (u ty : String) :
    (is_duplicate_alert s now u ty).2.alert_history =
      (if (is_duplicate_alert s now u ty).1 then s.alert_history
       else aset (u, ty) now s.alert_history) ∧
    (is_duplicate_alert s now u ty).2.rate_limiters = s.rate_limiters := by
  unfold is_duplicate_alert
  cases h : aget (u, ty) s.alert_history with
  | none => simp
  | some last =>
    by_cases hc : now - cooldown_seconds < last
    · simp [hc]
    · simp [hc]

/-- C10: neither public entry point propagates an internal failure: the
guarded `detect_threats` and `process_threats` return the body result on
success and the empty list on any error, making a failed run
indistinguishable from a run that found no threats or generated no alerts;
with all phases succeeding, the guarded detector coincides with the pure
pipeline. -/
theorem public_calls_never_raise
    (ruleR patternR anomalyR mlR : Except String (List Threat))
    (corr score : List Threat → Except String (List Threat))
    (body : Except String (List Alert × AMState)) :
    ((∃ l, detect_threats_body ruleR patternR anomalyR mlR corr score = Except.ok l ∧
        detect_threats_guarded ruleR patternR anomalyR mlR corr score = l) ∨
      (∃ e, detect_threats_body ruleR patternR anomalyR mlR corr score = Except.error e ∧
        detect_threats_guarded ruleR patternR anomalyR mlR corr score = [])) ∧
    ((∃ r, body = Except.ok r ∧ process_threats_guarded body = r.1) ∨
      (∃ e, body = Except.error e ∧ process_threats_guarded body = [])) ∧
    (∀ (now : Int) (ba : DetectorInput) (events : List Event),
      detect_threats_guarded (Except.ok (rule_based_detection ba events))
        (Except.ok (pattern_based_detection events))
        (Except.ok (anomaly_based_detection ba))
        (Except.ok (ml_based_detection ba))
        (fun ts => Except.ok (correlate_threats ts))
        (fun c => Except.ok (calculate_risk_scores now c)) =
      detect_threats now ba events) := by
  refine ⟨?_, ?_, ?_⟩
  · cases h : detect_threats_body ruleR patternR anomalyR mlR corr score with
    | ok l => exact Or.inl ⟨l, rfl, by simp [detect_threats_guarded, h]⟩
    | error e => exact Or.inr ⟨e, rfl, by simp [detect_threats_guarded, h]⟩
  · cases body with
    | ok r => exact Or.inl ⟨r, rfl, rfl⟩
    | error e => exact Or.inr ⟨e, rfl, rfl⟩
  · intro now ba events
    rfl

/-- Replacing a key's window with its pruned form never changes any key's
in-window count. -/
theorem prune_state (s : AMState) (now : Int) (k k2 : RLKey) :
    inWindowCount
      ⟨aset k (winFilter now ((aget k s.rate_limiters).getD [])) s.rate_limiters,
        s.alert_history⟩ now k2 = inWindowCount s now k2 := by
  unfold inWindowCount
  by_cases hk : k2 = k
  · subst hk
    rw [show (aget k2 (aset k2 (winFilter now ((aget k2 s.rate_limiters).getD []))
        s.rate_limiters)) = some (winFilter now ((aget k2 s.rate_limiters).getD []))
      from aget_aset_same k2 _ s.rate_limiters]
    simp only [Option.getD_some, winFilter, List.filter_filter, Bool.and_self]
  · rw [aget_aset_ne k k2 _ s.rate_limiters hk]

/-- The rate-limit check prunes windows but never changes an in-window count. -/
theorem is_rate_limited_counts (s : AMState) (now : Int) (u ty : String) :
    ∀ k, inWindowCount (is_rate_limited s now u ty).2 now k = inWindowCount s now k := by
  intro k
  unfold is_rate_limited
  dsimp only
  split_ifs with h1 h2
  · exact prune_state s now (RLKey.user u) k
  · exact (prune_state
      ⟨aset (RLKey.user u) (winFilter now ((aget (RLKey.user u) s.rate_limiters).getD []))
          s.rate_limiters, s.alert_history⟩ now (RLKey.threat ty) k).trans
      (prune_state s now (RLKey.user u) k)
  · exact (prune_state
      ⟨aset (RLKey.user u) (winFilter now ((aget (RLKey.user u) s.rate_limiters).getD []))
          s.rate_limiters, s.alert_history⟩ now (RLKey.threat ty) k).trans
      (prune_state s now (RLKey.user u) k)

/-- The rate-limit check never touches the duplicate-suppression history. -/
theorem is_rate_limited_history (s : AMState) (now : Int) (u ty : String) :
    (is_rate_limited s now u ty).2.alert_history = s.alert_history := by
  unfold is_rate_limited
  dsimp only
  split_ifs <;> rfl

/-- The duplicate check never touches the rate-limit windows. -/
theorem is_duplicate_alert_rate_limiters (s : AMState) (now : Int) (u ty : String) :
    (is_duplicate_alert s now u ty).2.rate_limiters = s.rate_limiters := by
  unfold is_duplicate_alert
  cases aget (u, ty) s.alert_history with
  | none => rfl
  | some last =>
    by_cases hc : now - cooldown_seconds < last <;> simp [hc]

/-- The gating check may prune windows and stamp the duplicate history, but
never changes an in-window rate-limit count. -/
theorem should_generate_alert_preserves_counts (s : AMState) (now : Int)
    (user_id : String) (t : Threat) :
    ∀ k, inWindowCount (should_generate_alert s now user_id t).2 now k =
      inWindowCount s now k := by
  intro k
  unfold should_generate_alert
  by_cases hmin : t.risk_score < min_risk_score t.severity
  · simp [hmin]
  · simp only [hmin, if_false]
    rcases hrl : is_rate_limited s now user_id t.threat_type with ⟨brl, s1⟩
    have hs1 : inWindowCount s1 now k = inWindowCount s now k := by
      have h1 := is_rate_limited_counts s now user_id t.threat_type k
      rw [hrl] at h1
      exact h1
    cases brl with
    | true => exact hs1
    | false =>
      rcases hdup : is_duplicate_alert s1 now user_id t.threat_type with ⟨bd, s2⟩
      dsimp only
      rw [hdup]
      have hs2 : s2.rate_limiters = s1.rate_limiters := by
        have h2 := is_duplicate_alert_rate_limiters s1 now user_id t.threat_type
        rw [hdup] at h2
        exact h2
      have hcount : inWindowCount s2 now k = inWindowCount s1 now k := by
        unfold inWindowCount
        rw [hs2]
      cases bd with
      | true => exact hcount.trans hs1
      | false => exact hcount.trans hs1

/-- C4: a threat dropped by any gate (below the severity-keyed minimum risk
score, rate-limited, or duplicate-suppressed) produces no alert, and the
rolling one-hour rate-limit counts of every key, user and threat type alike,
are unchanged: timestamps are appended to the windows only when an alert is
actually created. -/
theorem gate_drop_no_side_effect (s : AMState) (now : Int) (user_id : String)
    (t : Threat) (h : (should_generate_alert s now user_id t).1 = false) :
    process_threats s now user_id [t] = ([], (should_generate_alert s now user_id t).2) ∧
    (∀ k, inWindowCount ((should_generate_alert s now user_id t).2) now k =
      inWindowCount s now k) := by
  constructor
  · rcases hsg : should_generate_alert s now user_id t with ⟨b, s1⟩
    rw [hsg] at h
    simp only at h
    subst h
    simp [process_threats, process_threats_go, hsg]
  · exact should_generate_alert_preserves_counts s now user_id t

/-- Witness for C4: on a fresh manager, a medium threat with risk score 0.1
is dropped with no alert and the gating state returned unchanged. -/
theorem gate_drop_no_side_effect_witness :
    process_threats initialAMState 0 "u1" [c4Threat] =
      ([], (should_generate_alert initialAMState 0 "u1" c4Threat).2) :=
  (gate_drop_no_side_effect initialAMState 0 "u1" c4Threat (by decide)).1

/-- The windows produced by the grouping loop concatenate back to its input:
no event is dropped or duplicated. -/
theorem groupAux_flatten (tf : Int) :
    ∀ (rest : List Event) (wstart : Int) (cur : List Event),
      (groupAux tf wstart cur rest).flatten = cur ++ rest := by
  intro rest
  induction rest with
  | nil => intro wstart cur; simp [groupAux]
  | cons e rest ih =>
    intro wstart cur
    unfold groupAux
    by_cases h : e.timestamp - wstart ≤ tf
    · simp only [h, if_true]
      rw [ih]
      simp
    · simp only [h, if_false]
      simp only [List.flatten_cons]
      rw [ih]
      simp

/-- Head of an append with a non-empty left part. -/
theorem headD_append_left {α : Type} (l : List α) (x d : α) (h : l ≠ []) :
    (l ++ [x]).headD d = l.headD d := by
  cases l with
  | nil => exact absurd rfl h
  | cons a as => rfl

/-- Every window produced by the grouping loop is non-empty and spans at most
the timeframe, measured from its first event. -/
theorem groupAux_spans (tf : Int) (htf : 0 ≤ tf) :
    ∀ (rest : List Event) (wstart : Int) (cur : List Event), cur ≠ [] →
      (cur.headD dummyEvent).timestamp = wstart →
      (∀ x ∈ cur, x.timestamp - wstart ≤ tf) →
      ∀ w ∈ groupAux tf wstart cur rest, w ≠ [] ∧
        ∀ x ∈ w, x.timestamp - (w.headD dummyEvent).timestamp ≤ tf := by
  intro rest
  induction rest with
  | nil =>
    intro wstart cur hne hhead hspan w hw
    simp only [groupAux, List.mem_singleton] at hw
    subst hw
    exact ⟨hne, by rw [hhead]; exact hspan⟩
  | cons e rest ih =>
    intro wstart cur hne hhead hspan w hw
    unfold groupAux at hw
    by_cases h : e.timestamp - wstart ≤ tf
    · simp only [h, if_true] at hw
      refine ih wstart (cur ++ [e]) (by simp) ?_ ?_ w hw
      · rw [headD_append_left cur e dummyEvent hne]
        exact hhead
      · intro x hx
        rcases List.mem_append.mp hx with hx | hx
        · exact hspan x hx
        · simp only [List.mem_singleton] at hx
          subst hx
          exact h
    · simp only [h, if_false, List.mem_cons] at hw
      rcases hw with hw | hw
      · subst hw
        exact ⟨hne, by rw [hhead]; exact hspan⟩
      · refine ih e.timestamp [e] (by simp) rfl ?_ w hw
        intro x hx
        simp only [List.mem_singleton] at hx
        subst hx
        simp [htf]

/-- The grouping loop never returns an empty window list. -/
theorem groupAux_ne_nil (tf : Int) :
    ∀ (rest : List Event) (wstart : Int) (cur : List Event),
      groupAux tf wstart cur rest ≠ [] := by
  intro rest
  induction rest with
  | nil => intro wstart cur; simp [groupAux]
  | cons e rest ih =>
    intro wstart cur
    unfold groupAux
    by_cases h : e.timestamp - wstart ≤ tf
    · simp only [h, if_true]
      exact ih wstart (cur ++ [e])
    · simp [h]

/-- The first event of the first window returned by the grouping loop is the
first event of the window that was open when the loop started. -/
theorem groupAux_first_head (tf : Int) :
    ∀ (rest : List Event) (wstart : Int) (cur : List Event), cur ≠ [] →
      ((groupAux tf wstart cur rest).headD []).headD dummyEvent = cur.headD dummyEvent := by
  intro rest
  induction rest with
  | nil => intro wstart cur _; simp [groupAux]
  | cons e rest ih =>
    intro wstart cur hne
    unfold groupAux
    by_cases h : e.timestamp - wstart ≤ tf
    · simp only [h, if_true]
      rw [ih wstart (cur ++ [e]) (by simp)]
      exact headD_append_left cur e dummyEvent hne
    · simp [h]

/-- Consecutive windows start more than the timeframe apart, measured between
their first events: a new window opens exactly when the gap from the window
start exceeds the timeframe. -/
theorem groupAux_chain (tf : Int) :
    ∀ (rest : List Event) (wstart : Int) (cur : List Event), cur ≠ [] →
      (cur.headD dummyEvent).timestamp = wstart →
      List.Chain' (fun w1 w2 =>
        tf < (w2.headD dummyEvent).timestamp - (w1.headD dummyEvent).timestamp)
        (groupAux tf wstart cur rest) := by
  intro rest
  induction rest with
  | nil => intro wstart cur _ _; simp [groupAux]
  | cons e rest ih =>
    intro wstart cur hne hhead
    unfold groupAux
    by_cases h : e.timestamp - wstart ≤ tf
    · simp only [h, if_true]
      refine ih wstart (cur ++ [e]) (by simp) ?_
      rw [headD_append_left cur e dummyEvent hne]
      exact hhead
    · simp only [h, if_false]
      rcases hgs : groupAux tf e.timestamp [e] rest with _ | ⟨g, gs⟩
      · exact absurd hgs (groupAux_ne_nil tf rest e.timestamp [e])
      · refine List.chain'_cons.mpr ⟨?_, ?_⟩
        · have hfirst := groupAux_first_head tf rest e.timestamp [e] (by simp)
          rw [hgs] at hfirst
          simp only [List.headD_cons] at hfirst
          rw [hfirst, hhead]
          simpa using lt_of_not_le h
        · have := ih e.timestamp [e] (by simp) rfl
          rw [hgs] at this
          exact this

/-- Membership reading of `_matches_pattern`: the pattern sequence is checked
as a subset of the window's event types. -/
theorem matches_pattern_iff (w : List Event) (seq : List String) :
    matches_pattern w seq = true ↔ ∀ s ∈ seq, s ∈ w.map (fun e => e.event_type) := by
  unfold matches_pattern
  simp [List.all_eq_true, List.elem_iff]

/-- C9: the pattern-based strategy partitions the time-sorted events into
windows: the windows concatenate back to the sorted input, which is a
permutation of the input and sorted by timestamp; every window is non-empty
and spans at most the timeframe from its first event; consecutive windows
start more than the timeframe apart; a window matches when its set of event
types is a superset of the pattern's sequence, so order and multiplicity of
occurrence inside the window are irrelevant; and one threat is emitted per
matching window. -/
theorem pattern_window_partition (events : List Event) (pattern_name : String)
    (cfg : ThreatPattern) (htf : 0 ≤ cfg.timeframe) :
    ((group_events_by_time events cfg.timeframe).flatten = sortEvents events ∧
      (sortEvents events).Perm events ∧
      List.Sorted eventLE (sortEvents events)) ∧
    (∀ w ∈ group_events_by_time events cfg.timeframe, w ≠ [] ∧
      ∀ x ∈ w, x.timestamp - (w.headD dummyEvent).timestamp ≤ cfg.timeframe) ∧
    List.Chain' (fun w1 w2 =>
      cfg.timeframe < (w2.headD dummyEvent).timestamp - (w1.headD dummyEvent).timestamp)
      (group_events_by_time events cfg.timeframe) ∧
    (∀ (w : List Event) (seq : List String),
      matches_pattern w seq = true ↔ ∀ s ∈ seq, s ∈ w.map (fun e => e.event_type)) ∧
    (∀ (w w2 : List Event) (seq : List String),
      (w.map (fun e => e.event_type)).Perm (w2.map (fun e => e.event_type)) →
      matches_pattern w seq = matches_pattern w2 seq) ∧
    (check_threat_pattern pattern_name cfg events).length =
      ((group_events_by_time events cfg.timeframe).filter
        (fun w => matches_pattern w cfg.sequence)).length := by
  refine ⟨⟨?_, ?_, ?_⟩, ?_, ?_, ?_, ?_, ?_⟩
  · unfold group_events_by_time
    cases hs : sortEvents events with
    | nil => simp
    | cons e rest => exact groupAux_flatten cfg.timeframe rest e.timestamp [e]
  · exact List.perm_insertionSort eventLE events
  · exact List.sorted_insertionSort eventLE events
  · intro w hw
    unfold group_events_by_time at hw
    cases hs : sortEvents events with
    | nil => rw [hs] at hw; simp at hw
    | cons e rest =>
      rw [hs] at hw
      exact groupAux_spans cfg.timeframe htf rest e.timestamp [e] (by simp) rfl
        (by intro x hx; simp only [List.mem_singleton] at hx; subst hx; simp [htf]) w hw
  · unfold group_events_by_time
    cases hs : sortEvents events with
    | nil => simp
    | cons e rest => exact groupAux_chain cfg.timeframe rest e.timestamp [e] (by simp) rfl
  · exact matches_pattern_iff
  · intro w w2 seq hperm
    rcases hb : matches_pattern w2 seq with _ | _
    · rcases hb2 : matches_pattern w seq with _ | _
      · rfl
      · exfalso
        have h1 := (matches_pattern_iff w seq).mp hb2
        have h2 := (matches_pattern_iff w2 seq).mpr
          (fun s hs => hperm.mem_iff.mp (h1 s hs))
        rw [hb] at h2
        exact Bool.false_ne_true h2
    · rcases hb2 : matches_pattern w seq with _ | _
      · exfalso
        have h1 := (matches_pattern_iff w2 seq).mp hb
        have h2 := (matches_pattern_iff w seq).mpr
          (fun s hs => hperm.mem_iff.mpr (h1 s hs))
        rw [hb2] at h2
        exact Bool.false_ne_true h2
      · rfl
  · unfold check_threat_pattern
    exact List.length_map _ _

/-- Witness for C9 on the concrete event list with the reconnaissance
pattern configuration. -/
theorem pattern_window_partition_witness :
    (group_events_by_time c9Events (1800 : Int)).flatten = sortEvents c9Events ∧
    (check_threat_pattern "reconnaissance_pattern"
      ⟨["directory_enumeration", "privilege_check", "network_scan"], 1800, "high"⟩
      c9Events).length =
      ((group_events_by_time c9Events (1800 : Int)).filter
        (fun w => matches_pattern w
          ["directory_enumeration", "privilege_check", "network_scan"])).length := by
  have h := pattern_window_partition c9Events "reconnaissance_pattern"
    ⟨["directory_enumeration", "privilege_check", "network_scan"], 1800, "high"⟩
    (by decide)
  exact ⟨h.1.1, h.2.2.2.2.2⟩

/-- C1 counterexample: on the scenario batch the rule-based strategy never
fires `large_file_access` (the 120 MB land in the `total_file_size` feature,
while the rule reads `total_data_volume`, a network feature), and the alert
manager creates no alert at all (the merged risk score 0.56 is below the 0.7
minimum for high severity), refuting the claimed two-rule firing and the
claimed high-priority alert dispatch. -/
theorem c1_scenario_counterexample :
    (¬ ∃ t ∈ c1Threats, t.rule_id = "large_file_access") ∧
    (process_threats initialAMState 1699956000 "user1" c1Threats).1 = [] := by decide

/-- C1 (amended): on the scenario batch the scorer returns anomaly score 0.3
for the baseline-less user; the rule-based strategy fires only
`bulk_download`; correlation passes the singleton threat through with
severity high and confidence 0.7; final scoring assigns risk 0.56; and the
alert manager drops the threat at the minimum-risk-score gate, creating and
dispatching nothing and leaving its state untouched. -/
theorem c1_scenario_amended :
    c1Analysis.anomaly_score = mkRat 3 10 ∧
    (rule_based_detection c1Input c1Events).map (fun t => t.rule_id) = ["bulk_download"] ∧
    c1Threats.map (fun t => (t.threat_type, t.rule_id, t.severity, t.confidence, t.risk_score)) =
      [("data_exfiltration", "bulk_download", "high", mkRat 7 10, mkRat 56 100)] ∧
    processBatch c1SqrtFn none initialAMState 1699956000 "user1" c1Events =
      ([], initialAMState) := by decide

/-- Pruning a window all of whose entries are inside the rolling hour is the
identity. -/
theorem winFilter_eq_self (now : Int) (l : List Int)
    (h : ∀ x ∈ l, now - 3600 < x) : winFilter now l = l :=
  List.filter_eq_self.mpr (fun x hx => decide_eq_true (h x hx))

/-- The rate-limit check replaces the user's window by its pruned form. -/
theorem userWin_is_rate_limited (s : AMState) (now : Int) (u ty : String) :
    userWin (is_rate_limited s now u ty).2 u = winFilter now (userWin s u) := by
  unfold is_rate_limited userWin winFilter
  dsimp only
  split_ifs with h1 h2
  · rw [aget_aset_same]
    rfl
  · rw [aget_aset_ne _ _ _ _ (fun h => RLKey.noConfusion h), aget_aset_same]
    rfl
  · rw [aget_aset_ne _ _ _ _ (fun h => RLKey.noConfusion h), aget_aset_same]
    rfl

/-- Updating the rate windows after an alert appends the creation time to the
user's window. -/
theorem userWin_update (s : AMState) (now : Int) (u ty : String) :
    userWin (update_rate_limiting s now u ty) u = userWin s u ++ [now] := by
  unfold update_rate_limiting userWin
  dsimp only
  rw [aget_aset_ne _ _ _ _ (fun h => RLKey.noConfusion h), aget_aset_same]
  rfl

/-- When every recorded timestamp is inside the rolling hour, the gating
check leaves the user's window unchanged whatever its verdict. -/
theorem sga_userWin (s : AMState) (now : Int) (u : String) (t : Threat)
    (h : ∀ x ∈ userWin s u, now - 3600 < x) :
    userWin (should_generate_alert s now u t).2 u = userWin s u := by
  unfold should_generate_alert
  by_cases hmin : t.risk_score < min_risk_score t.severity
  · simp [hmin]
  · simp only [hmin, if_false]
    rcases hrl : is_rate_limited s now u t.threat_type with ⟨brl, s1⟩
    have hu1 : userWin s1 u = userWin s u := by
      have hw := userWin_is_rate_limited s now u t.threat_type
      rw [hrl] at hw
      rw [hw]
      exact winFilter_eq_self now (userWin s u) h
    cases brl with
    | true => exact hu1
    | false =>
      dsimp only
      rcases hdup : is_duplicate_alert s1 now u t.threat_type with ⟨bd, s2⟩
      have hu2 : userWin s2 u = userWin s1 u := by
        unfold userWin
        have hr := is_duplicate_alert_rate_limiters s1 now u t.threat_type
        rw [hdup] at hr
        rw [hr]
      cases bd with
      | true => exact hu2.trans hu1
      | false => exact hu2.trans hu1

/-- A non-limited verdict means the pruned user window is below the cap. -/
theorem rl_false_bound (s : AMState) (now : Int) (u ty : String)
    (h : (is_rate_limited s now u ty).1 = false) :
    (winFilter now (userWin s u)).length < per_user_per_hour := by
  by_cases h1 : per_user_per_hour ≤
      (((aget (RLKey.user u) s.rate_limiters).getD []).filter
        (fun ts => now - 3600 < ts)).length
  · exfalso
    unfold is_rate_limited at h
    dsimp only at h
    rw [if_pos h1] at h
    cases h
  · exact Nat.lt_of_not_le h1

/-- A passing gate means the pruned user window is below the cap. -/
theorem sga_true_bound (s : AMState) (now : Int) (u : String) (t : Threat)
    (h : (should_generate_alert s now u t).1 = true) :
    (winFilter now (userWin s u)).length < per_user_per_hour := by
  unfold should_generate_alert at h
  by_cases hmin : t.risk_score < min_risk_score t.severity
  · rw [if_pos hmin] at h
    cases h
  · rw [if_neg hmin] at h
    rcases hrl : is_rate_limited s now u t.threat_type with ⟨brl, s1⟩
    rw [hrl] at h
    cases brl with
    | true => simp at h
    | false => exact rl_false_bound s now u t.threat_type (by rw [hrl])

/-- Within one rolling hour, processing any threat list adds at most enough
alerts to bring the user's recorded window to the cap: the window length
tracks the alert count and never passes `per_user_per_hour`. -/
theorem processGo_cap (now T : Int) (u : String) (hT1 : T ≤ now)
    (hT2 : now < T + 3600) :
    ∀ (ts : List Threat) (s : AMState) (n : Nat),
      (userWin s u).length = n → (∀ x ∈ userWin s u, T ≤ x) →
      n ≤ per_user_per_hour →
      ((process_threats_go s now u ts).1).length + n ≤ per_user_per_hour ∧
      (userWin (process_threats_go s now u ts).2 u).length =
        n + ((process_threats_go s now u ts).1).length ∧
      (∀ x ∈ userWin (process_threats_go s now u ts).2 u, T ≤ x) := by
  intro ts
  induction ts with
  | nil =>
    intro s n hlen hge hcap
    exact ⟨by simpa [process_threats_go] using hcap,
      by simp [process_threats_go, hlen], by simpa [process_threats_go] using hge⟩
  | cons t ts ih =>
    intro s n hlen hge hcap
    have hwin : ∀ x ∈ userWin s u, now - 3600 < x := by
      intro x hx
      have := hge x hx
      omega
    rcases hsg : should_generate_alert s now u t with ⟨b, s1⟩
    have hu1 : userWin s1 u = userWin s u := by
      have hw := sga_userWin s now u t hwin
      rw [hsg] at hw
      exact hw
    cases b with
    | false =>
      have hstep : process_threats_go s now u (t :: ts) = process_threats_go s1 now u ts := by
        simp only [process_threats_go]
        rw [hsg]
      rw [hstep]
      exact ih s1 n (by rw [hu1]; exact hlen) (by rw [hu1]; exact hge) hcap
    | true =>
      have hlt : n < per_user_per_hour := by
        have hb := sga_true_bound s now u t (by rw [hsg])
        rw [winFilter_eq_self now (userWin s u) hwin, hlen] at hb
        exact hb
      have hstep : process_threats_go s now u (t :: ts) =
          (create_alert now u t ::
            (process_threats_go (update_rate_limiting s1 now u t.threat_type) now u ts).1,
           (process_threats_go (update_rate_limiting s1 now u t.threat_type) now u ts).2) := by
        simp only [process_threats_go]
        rw [hsg]
      have hu2 : userWin (update_rate_limiting s1 now u t.threat_type) u =
          userWin s u ++ [now] := by
        rw [userWin_update, hu1]
      have hge2 : ∀ x ∈ userWin (update_rate_limiting s1 now u t.threat_type) u, T ≤ x := by
        rw [hu2]
        intro x hx
        rcases List.mem_append.mp hx with hx | hx
        · exact hge x hx
        · simp only [List.mem_singleton] at hx
          subst hx
          exact hT1
      have hlen2 : (userWin (update_rate_limiting s1 now u t.threat_type) u).length = n + 1 := by
        rw [hu2]
        simp [hlen]
      have hrec := ih (update_rate_limiting s1 now u t.threat_type) (n + 1) hlen2 hge2 hlt
      rw [hstep]
      refine ⟨?_, ?_, hrec.2.2⟩
      · simp only [List.length_cons]
        omega
      · rw [hrec.2.1]
        simp only [List.length_cons]
        omega

/-- Any sequence of batches for one user whose submission times all lie in
one rolling hour creates at most enough alerts to reach the cap. -/
theorem runBatches_cap (T : Int) (u : String) :
    ∀ (batches : List (Int × List Threat)) (s : AMState) (n : Nat),
      (∀ b ∈ batches, T ≤ b.1 ∧ b.1 < T + 3600) →
      (userWin s u).length = n → (∀ x ∈ userWin s u, T ≤ x) →
      n ≤ per_user_per_hour →
      ((runBatches s u batches).1).length + n ≤ per_user_per_hour := by
  intro batches
  induction batches with
  | nil =>
    intro s n _ _ _ hcap
    simpa [runBatches] using hcap
  | cons b rest ih =>
    intro s n hb hlen hge hcap
    rcases b with ⟨now, ts⟩
    have hbnow := hb (now, ts) (List.mem_cons_self _ _)
    have hgo := processGo_cap now T u hbnow.1 hbnow.2 ts s n hlen hge hcap
    have hstep : runBatches s u ((now, ts) :: rest) =
        ((process_threats_go s now u ts).1 ++
          (runBatches (process_threats_go s now u ts).2 u rest).1,
         (runBatches (process_threats_go s now u ts).2 u rest).2) := rfl
    have hrec := ih (process_threats_go s now u ts).2
      (n + ((process_threats_go s now u ts).1).length)
      (fun b2 hb2 => hb b2 (List.mem_cons_of_mem _ hb2))
      hgo.2.1 hgo.2.2 (by omega)
    rw [hstep]
    simp only [List.length_append]
    omega

/-- C2 counterexample: eleven identical qualifying medium threats for one
user submitted together produce one alert, not ten: after the first alert
the duplicate-suppression cooldown rejects the remaining ten, so eleven
qualifying threats within an hour do not in general yield exactly ten
alerts. -/
theorem eleven_identical_threats_counterexample :
    (process_threats initialAMState 0 "u1"
      (List.replicate 11 (c2Threat "t1"))).1.length = 1 ∧
    (1 : Nat) ≠ 10 := by decide

/-- C2 (amended): for every batch sequence for a single user whose submission
times all lie within one rolling hour, at most 10 alerts are created, the
per-user hourly cap, and an over-cap threat is simply dropped; eleven
qualifying medium threats within one hour yield exactly ten alerts when they
additionally dodge the per-type cap and the 15-minute duplicate cooldown, as
in the concrete schedule of `c2TenBatches`. -/
theorem hourly_user_alert_cap (u : String) (T : Int)
    (batches : List (Int × List Threat))
    (hb : ∀ b ∈ batches, T ≤ b.1 ∧ b.1 < T + 3600) :
    ((runBatches initialAMState u batches).1).length ≤ 10 ∧
    ((runBatches initialAMState "u1" c2TenBatches).1.length = 10 ∧
      (c2TenBatches.map (fun b => b.2.length)).sum = 11) := by
  constructor
  · have h := runBatches_cap T u batches initialAMState 0 hb rfl
      (by intro x hx; cases hx) (by simp [per_user_per_hour])
    simpa [per_user_per_hour] using h
  · exact ⟨by decide, by decide⟩

/-- Witness for C2 (amended) at the concrete schedule, whose two submission
times 0 and 1000 lie inside the rolling hour starting at 0. -/
theorem hourly_user_alert_cap_witness :
    ((runBatches initialAMState "u1" c2TenBatches).1).length ≤ 10 :=
  (hourly_user_alert_cap "u1" 0 c2TenBatches (by decide)).1

/-- Folding `Nat.max` is invariant under permutation of the list. -/
theorem foldl_max_perm {l1 l2 : List Nat} (h : l1.Perm l2) :
    ∀ a : Nat, l1.foldl Nat.max a = l2.foldl Nat.max a := by
  induction h with
  | nil => intro a; rfl
  | cons x _ ih =>
    intro a
    simp only [List.foldl_cons]
    exact ih _
  | swap x y l =>
    intro a
    simp only [List.foldl_cons]
    have hmax : Nat.max (Nat.max a y) x = Nat.max (Nat.max a x) y := by
      simp only [Nat.max_def]
      split_ifs <;> omega
    rw [hmax]
  | trans _ _ ih1 ih2 =>
    intro a
    exact (ih1 a).trans (ih2 a)

/-- The first-maximum selection of `_merge_threats` picks a member of the
group. -/
theorem maxSevThreat_mem : ∀ (ts : List Threat) (t : Threat),
    maxSevThreat t ts ∈ t :: ts := by
  intro ts
  induction ts with
  | nil =>
    intro t
    simp [maxSevThreat]
  | cons x xs ih =>
    intro t
    unfold maxSevThreat at ih ⊢
    simp only [List.foldl_cons]
    rcases List.mem_cons.mp
        (ih (if severityRank t.severity < severityRank x.severity then x else t)) with h | h
    · rw [h]
      split_ifs
      · exact List.mem_cons_of_mem _ (List.mem_cons_self _ _)
      · exact List.mem_cons_self _ _
    · exact List.mem_cons_of_mem _ (List.mem_cons_of_mem _ h)

/-- The severity rank of the selected base threat is the maximal rank of the
group. -/
theorem maxSevThreat_rank : ∀ (ts : List Threat) (t : Threat),
    severityRank (maxSevThreat t ts).severity =
      (ts.map (fun x => severityRank x.severity)).foldl Nat.max
        (severityRank t.severity) := by
  intro ts
  induction ts with
  | nil =>
    intro t
    rfl
  | cons x xs ih =>
    intro t
    unfold maxSevThreat at ih ⊢
    simp only [List.foldl_cons, List.map_cons]
    rw [ih]
    congr 1
    split_ifs with h
    · exact (Nat.max_eq_right (Nat.le_of_lt h)).symm
    · exact (Nat.max_eq_left (Nat.le_of_not_lt h)).symm

/-- The base severity rank equals the group's maximal rank. -/
theorem merge_rank (t : Threat) (ts : List Threat) :
    severityRank (maxSevThreat t ts).severity = maxRank (t :: ts) := by
  rw [maxSevThreat_rank]
  unfold maxRank
  simp only [List.map_cons, List.foldl_cons, Nat.zero_max]

/-- The severity rank is injective on the closed severity enumeration. -/
theorem severityRank_inj (s1 s2 : String) (h1 : validSeverity s1)
    (h2 : validSeverity s2) (h : severityRank s1 = severityRank s2) : s1 = s2 := by
  rcases h1 with rfl | rfl | rfl | rfl <;> rcases h2 with rfl | rfl | rfl | rfl <;>
    first
      | rfl
      | exact absurd h (by decide)

/-- Merging permuted groups of one threat type yields the same type, severity
and confidence. -/
theorem merge_sig_eq (a : Threat) (as : List Threat) (b : Threat) (bs : List Threat)
    (k : String) (hperm : (a :: as).Perm (b :: bs))
    (hall1 : ∀ t ∈ a :: as, t.threat_type = k)
    (hv1 : ∀ t ∈ a :: as, validSeverity t.severity) :
    threatSig (merge_threats (a :: as)) = threatSig (merge_threats (b :: bs)) := by
  have hall2 : ∀ t ∈ b :: bs, t.threat_type = k :=
    fun t ht => hall1 t (hperm.mem_iff.mpr ht)
  have hv2 : ∀ t ∈ b :: bs, validSeverity t.severity :=
    fun t ht => hv1 t (hperm.mem_iff.mpr ht)
  have htt1 : (merge_threats (a :: as)).threat_type = k := by
    show (maxSevThreat a as).threat_type = k
    exact hall1 _ (maxSevThreat_mem as a)
  have htt2 : (merge_threats (b :: bs)).threat_type = k := by
    show (maxSevThreat b bs).threat_type = k
    exact hall2 _ (maxSevThreat_mem bs b)
  have hsev : (merge_threats (a :: as)).severity = (merge_threats (b :: bs)).severity := by
    apply severityRank_inj _ _ (hv1 _ (maxSevThreat_mem as a)) (hv2 _ (maxSevThreat_mem bs b))
    show severityRank (maxSevThreat a as).severity = severityRank (maxSevThreat b bs).severity
    rw [merge_rank, merge_rank]
    unfold maxRank
    exact foldl_max_perm (hperm.map _) 0
  have hconf : (merge_threats (a :: as)).confidence = (merge_threats (b :: bs)).confidence := by
    show qdiv (qsum ((a :: as).map (fun x => x.confidence))) (((a :: as).length : Nat) : ℚ) =
      qdiv (qsum ((b :: bs).map (fun x => x.confidence))) (((b :: bs).length : Nat) : ℚ)
    rw [qsum_eq, qsum_eq, (hperm.map (fun x => x.confidence)).sum_eq, hperm.length_eq]
  show ((merge_threats (a :: as)).threat_type, (merge_threats (a :: as)).severity,
      (merge_threats (a :: as)).confidence) =
    ((merge_threats (b :: bs)).threat_type, (merge_threats (b :: bs)).severity,
      (merge_threats (b :: bs)).confidence)
  rw [htt1, hsev, hconf, htt2]

/-- Key membership for the first-occurrence key scan. -/
theorem threatTypeKeys_mem : ∀ (l : List Threat) (seen : List String) (k : String),
    k ∈ threatTypeKeys seen l ↔ (k ∉ seen ∧ ∃ t ∈ l, t.threat_type = k) := by
  intro l
  induction l with
  | nil =>
    intro seen k
    simp [threatTypeKeys]
  | cons t ts ih =>
    intro seen k
    unfold threatTypeKeys
    by_cases hm : t.threat_type ∈ seen
    · rw [if_pos hm, ih]
      constructor
      · rintro ⟨hk, x, hx, he⟩
        exact ⟨hk, x, List.mem_cons_of_mem _ hx, he⟩
      · rintro ⟨hk, x, hx, he⟩
        rcases List.mem_cons.mp hx with rfl | hx
        · exact absurd (he ▸ hm) hk
        · exact ⟨hk, x, hx, he⟩
    · rw [if_neg hm]
      constructor
      · intro hk
        rcases List.mem_cons.mp hk with rfl | hk
        · exact ⟨hm, t, List.mem_cons_self _ _, rfl⟩
        · obtain ⟨hks, x, hx, he⟩ := (ih (t.threat_type :: seen) k).mp hk
          exact ⟨fun hkseen => hks (List.mem_cons_of_mem _ hkseen), x,
            List.mem_cons_of_mem _ hx, he⟩
      · rintro ⟨hks, x, hx, he⟩
        rcases List.mem_cons.mp hx with rfl | hx
        · exact List.mem_cons.mpr (Or.inl he.symm)
        · by_cases hkt : k = t.threat_type
          · exact List.mem_cons.mpr (Or.inl hkt)
          · refine List.mem_cons.mpr
              (Or.inr ((ih (t.threat_type :: seen) k).mpr ⟨?_, x, hx, he⟩))
            intro hmem
            rcases List.mem_cons.mp hmem with h | h
            · exact hkt h
            · exact hks h

/-- The first-occurrence key scan never repeats a key. -/
theorem threatTypeKeys_nodup : ∀ (l : List Threat) (seen : List String),
    (threatTypeKeys seen l).Nodup := by
  intro l
  induction l with
  | nil =>
    intro seen
    simp [threatTypeKeys]
  | cons t ts ih =>
    intro seen
    unfold threatTypeKeys
    by_cases hm : t.threat_type ∈ seen
    · rw [if_pos hm]
      exact ih seen
    · rw [if_neg hm]
      refine List.nodup_cons.mpr ⟨?_, ih _⟩
      intro hmem
      exact ((threatTypeKeys_mem ts (t.threat_type :: seen) t.threat_type).mp hmem).1
        (List.mem_cons_self _ _)

/-- Permuting the threats permutes the key list. -/
theorem threatTypeKeys_perm (l1 l2 : List Threat) (h : l1.Perm l2) :
    (threatTypeKeys [] l1).Perm (threatTypeKeys [] l2) := by
  rw [List.perm_ext_iff_of_nodup (threatTypeKeys_nodup l1 []) (threatTypeKeys_nodup l2 [])]
  intro k
  rw [threatTypeKeys_mem, threatTypeKeys_mem]
  constructor
  · rintro ⟨hk, x, hx, he⟩
    exact ⟨hk, x, h.mem_iff.mp hx, he⟩
  · rintro ⟨hk, x, hx, he⟩
    exact ⟨hk, x, h.mem_iff.mpr hx, he⟩

/-- The correlated representative of one threat type has the same signature
whatever order the group arrived in. -/
theorem correlateGroup_sig (l1 l2 : List Threat) (hperm : l1.Perm l2)
    (hval : ∀ t ∈ l1, validSeverity t.severity) (k : String)
    (hk : ∃ t ∈ l2, t.threat_type = k) :
    threatSig (correlateGroup l1 k) = threatSig (correlateGroup l2 k) := by
  have hg : (l1.filter (fun t => t.threat_type = k)).Perm
      (l2.filter (fun t => t.threat_type = k)) := hperm.filter _
  have hne2 : l2.filter (fun t => t.threat_type = k) ≠ [] := by
    obtain ⟨t0, ht0, hk0⟩ := hk
    intro hnil
    have hmemf : t0 ∈ l2.filter (fun t => t.threat_type = k) :=
      List.mem_filter.mpr ⟨ht0, by simp [hk0]⟩
    rw [hnil] at hmemf
    cases hmemf
  unfold correlateGroup
  rcases hg1 : l1.filter (fun t => t.threat_type = k) with _ | ⟨a, as⟩
  · rw [hg1] at hg
    exact absurd hg.nil_eq.symm hne2
  · rw [hg1] at hg
    rw [hg1]
    have hall1 : ∀ t ∈ a :: as, t.threat_type = k := by
      intro t ht
      rw [← hg1] at ht
      exact of_decide_eq_true (List.mem_filter.mp ht).2
    have hv1 : ∀ t ∈ a :: as, validSeverity t.severity := by
      intro t ht
      rw [← hg1] at ht
      exact hval t (List.mem_filter.mp ht).1
    rcases as with _ | ⟨a2, as2⟩
    · have hg2 : l2.filter (fun t => t.threat_type = k) = [a] :=
        List.perm_singleton.mp hg.symm
      rw [hg2]
    · rcases hg2 : l2.filter (fun t => t.threat_type = k) with _ | ⟨b, bs⟩
      · rw [hg2] at hg
        have := hg.length_eq
        simp at this
      · rw [hg2] at hg
        rw [hg2]
        rcases bs with _ | ⟨b2, bs2⟩
        · have := hg.length_eq
          simp at this
        · exact merge_sig_eq a (a2 :: as2) b (b2 :: bs2) k hg hall1 hv1

/-- C5 (amended): feeding the strategies' threats to correlation in any order
yields the same multiset of correlated (threat type, severity, confidence)
signatures, provided every severity is one of the four of the closed
enumeration; the merged description, the base-record title and the values of
colliding evidence keys, in contrast, depend on the input order. -/
theorem correlation_order_invariant (l1 l2 : List Threat)
    (hval : ∀ t ∈ l1, validSeverity t.severity) (hperm : l1.Perm l2) :
    ((correlate_threats l1).map threatSig).Perm
      ((correlate_threats l2).map threatSig) := by
  by_cases h1 : l1 = []
  · subst h1
    rw [hperm.nil_eq.symm]
  · have h2 : l2 ≠ [] := by
      intro he
      subst he
      exact h1 hperm.eq_nil
    unfold correlate_threats
    rw [if_neg h1, if_neg h2, List.map_map, List.map_map]
    have hkeys := threatTypeKeys_perm l1 l2 hperm
    have hmap1 := hkeys.map (threatSig ∘ correlateGroup l1)
    have hcongr : (threatTypeKeys [] l2).map (threatSig ∘ correlateGroup l1) =
        (threatTypeKeys [] l2).map (threatSig ∘ correlateGroup l2) := by
      apply List.map_congr_left
      intro k hkmem
      have hex : ∃ t ∈ l2, t.threat_type = k :=
        ((threatTypeKeys_mem l2 [] k).mp hkmem).2
      exact correlateGroup_sig l1 l2 hperm hval k hex
    exact hcongr ▸ hmap1

/-- C5 counterexample: feeding the same two equal-severity threats to
correlation in the two orders changes the merged threat's title (the base
record is the first maximal-severity member) and its description (the
contributing titles are joined in input order), so the merged content is not
order-independent as claimed. -/
theorem correlation_order_counterexample :
    (correlate_threats [c5A, c5B]).map (fun t => t.title) =
      ["Large Data Volume Access"] ∧
    (correlate_threats [c5B, c5A]).map (fun t => t.title) =
      ["Bulk File Download"] ∧
    ¬ ((correlate_threats [c5A, c5B]).map (fun t => t.description) =
        (correlate_threats [c5B, c5A]).map (fun t => t.description)) := by decide

/-- Witness for C5 (amended) on the two concrete orders of the two
rule-based threats. -/
theorem correlation_order_invariant_witness :
    ((correlate_threats [c5A, c5B]).map threatSig).Perm
      ((correlate_threats [c5B, c5A]).map threatSig) :=
  correlation_order_invariant [c5A, c5B] [c5B, c5A] (by decide)
    (List.Perm.swap c5B c5A [])
